import Mathlib

/-!
# Portainer: Kubernetes stack update and user creation

A shallow embedding of two HTTP handlers,

* `updateKubernetesStack` (`api/http/handler/stacks/update_kubernetes_stack.go`),
* `userCreate` (`api/http/handler/users/user_create.go`),

as state-passing functions over an explicit record of collaborators.  Every
collaborator (Scheduler, GitService, DataStore, FileService, Kubernetes
deployer, crypto service ...) is a field of the handler record: a function
from its arguments and the current world `σ` to its result and the next
world.  A statement quantified over the handler record therefore holds for
every behaviour of the collaborators.
-/

namespace Portainer

/-! ## Errors -/

/-- A Go `error` value, represented by its message. -/
abbrev GoError := String

/-- Modelled from the spec: the `httperror.HandlerError` record of
`pkg/libhttp/error` (not under src) that a handler returns: status code,
message, wrapped error (`none` for a Go `nil`). -/
structure HandlerError where
  StatusCode : Nat
  Message : String
  Err : Option GoError
deriving DecidableEq, Repr

/-- Modelled from the spec: constructor `httperror.BadRequest` of
`pkg/libhttp/error` (not under src); the spec (sections 6 and 7) gives the
kind BadRequest the status 400. -/
def BadRequest (msg : String) (err : Option GoError) : HandlerError :=
  ⟨400, msg, err⟩

/-- Modelled from the spec: constructor `httperror.InternalServerError` of
`pkg/libhttp/error` (not under src); status 500. -/
def InternalServerError (msg : String) (err : Option GoError) : HandlerError :=
  ⟨500, msg, err⟩

/-- Modelled from the spec: constructor `httperror.Conflict` of
`pkg/libhttp/error` (not under src); status 409. -/
def Conflict (msg : String) (err : Option GoError) : HandlerError :=
  ⟨409, msg, err⟩

/-- Modelled from the spec: `request.DecodeAndValidateJSONPayload` of
`pkg/libhttp/request` (not under src): decode the body into the payload type,
then run the payload's `Validate`; either failure is the returned error.  The
result of decoding is carried by the request. -/
def DecodeAndValidateJSONPayload {α : Type} (body : Except GoError α)
    (validate : α → Option GoError) : Except GoError α :=
  match body with
  | .error e => .error e
  | .ok payload =>
    match validate payload with
    | some e => .error e
    | none => .ok payload

/-! ## Data model of the stack handler -/

/-- Modelled from the spec: the `gittypes.GitAuthentication` record (declared
outside src); section 3, `authentication` = `{username, password}`. -/
structure GitAuthentication where
  Username : String
  Password : String
deriving DecidableEq, Repr

/-- Modelled from the spec: the `gittypes.RepoConfig` record (declared outside
src); section 3, `gitConfig`: `{url, referenceName, tlsSkipVerify,
authentication?}`. -/
structure RepoConfig where
  URL : String
  ReferenceName : String
  Authentication : Option GitAuthentication
  TLSSkipVerify : Bool
deriving DecidableEq, Repr

/-- Modelled from the spec: the `portainer.AutoUpdateSettings` record
(declared outside src); section 3, `autoUpdate`: `{interval, jobId?}`.
`JobID` is a Go string: the empty string is "not populated". -/
structure AutoUpdateSettings where
  Interval : String
  JobID : String
deriving DecidableEq, Repr

/-- Modelled from the spec: the `portainer.Stack` record (declared outside
src); section 3: `id`, `name`, `entryPoint`, `namespace`, `projectPath`,
`createdBy`, optional `gitConfig`, optional `autoUpdate`.  These are the fields
the handler reads or writes. -/
structure Stack where
  ID : Int
  Name : String
  EntryPoint : String
  Namespace : String
  ProjectPath : String
  CreatedBy : String
  GitConfig : Option RepoConfig
  AutoUpdate : Option AutoUpdateSettings
deriving DecidableEq, Repr

/-- Modelled from the spec: the `portainer.Endpoint` the stack is deployed to
(declared outside src); the handler only passes it along. -/
structure Endpoint where
  ID : Int
deriving DecidableEq, Repr

/-- Modelled from the spec: the Kubernetes client handle returned by the client
factory (declared outside src); the handler only passes it along. -/
structure KubeClient where
  handle : Nat
deriving DecidableEq, Repr

/-- Modelled from the spec: the `portainer.TokenData` of the caller (declared
outside src), "caller identity"; the handler reads its `ID`. -/
structure TokenData where
  ID : Int
deriving DecidableEq, Repr

/-- Modelled from the spec: the `k.KubeAppLabels` record passed to the deployer
(declared outside src); section 4.1.2, labels `{stackID, stackName, owner, kind}`. -/
structure KubeAppLabels where
  StackID : Int
  StackName : String
  Owner : String
  Kind : String
deriving DecidableEq, Repr

/-- The payload of the file branch (lines 23-27 of `update_kubernetes_stack.go`). -/
structure kubernetesFileStackUpdatePayload where
  StackFileContent : String
  StackName : String
deriving DecidableEq, Repr

/-- The payload of the Git branch (lines 29-36 of `update_kubernetes_stack.go`). -/
structure kubernetesGitStackUpdatePayload where
  RepositoryReferenceName : String
  RepositoryAuthentication : Bool
  RepositoryUsername : String
  RepositoryPassword : String
  AutoUpdate : Option AutoUpdateSettings
  TLSSkipVerify : Bool
deriving DecidableEq, Repr

/-- The HTTP request as the handler sees it: the result of decoding its JSON
body into either payload type, and the result of `security.RetrieveTokenData`. -/
structure StackRequest where
  gitBody : Except GoError kubernetesGitStackUpdatePayload
  fileBody : Except GoError kubernetesFileStackUpdatePayload
  tokenData : Except GoError TokenData

/-- The collaborators of the stack handler.  Each is a function of its
arguments and the world; none of them is under src, so each is a parameter. -/
structure Handler (σ : Type) where
  /-- The function `update.ValidateAutoUpdateSettings`. -/
  ValidateAutoUpdateSettings : Option AutoUpdateSettings → Option GoError
  /-- The function `filesystem.JoinPaths`. -/
  JoinPaths : String → String → String
  /-- The call `deployments.StopAutoupdate(stackID, jobID, handler.Scheduler)`. -/
  StopAutoupdate : Int → String → σ → σ
  /-- The call `deployments.StartAutoupdate(stackID, interval, ...)`. -/
  StartAutoupdate : Int → String → σ → Except HandlerError String × σ
  /-- The call `handler.GitService.LatestCommitID(url, ref, user, pass, tlsSkipVerify)`. -/
  LatestCommitID : String → String → String → String → Bool → σ → Except GoError String × σ
  /-- The call `handler.DataStore.Stack().Update(id, stack)`. -/
  StackUpdate : Int → Stack → σ → Option GoError × σ
  /-- The call `handler.KubernetesClientFactory.GetKubeClient(endpoint)`. -/
  GetKubeClient : Endpoint → σ → Except GoError KubeClient × σ
  /-- The call `registryutils.RefreshEcrSecret(cli, endpoint, dataStore, namespace)`;
  its result is discarded by the handler. -/
  RefreshEcrSecret : KubeClient → Endpoint → String → σ → σ
  /-- The call `handler.deployKubernetesStack(userID, endpoint, stack, labels)`. -/
  deployKubernetesStack : Int → Endpoint → Stack → KubeAppLabels → σ → Except GoError String × σ
  /-- The call `handler.FileService.UpdateStoreStackFileFromBytes(folder, file, data)`. -/
  UpdateStoreStackFileFromBytes : String → String → String → σ → Except GoError String × σ
  /-- The call `handler.FileService.RollbackStackFile(folder, file)`. -/
  RollbackStackFile : String → String → σ → Option GoError × σ
  /-- The call `handler.FileService.RemoveStackFileBackup(folder, file)`; its
  result is discarded by the handler. -/
  RemoveStackFileBackup : String → String → σ → σ
  /-- The call `os.MkdirTemp(dir, pattern)`; the handler discards the error, so
  the result is the directory name alone (empty on failure). -/
  MkdirTemp : String → String → σ → String × σ
  /-- The deferred call `os.RemoveAll(dir)`. -/
  RemoveAll : String → σ → σ
  /-- The call `filesystem.WriteToFile(path, data)`. -/
  WriteToFile : String → String → σ → Option GoError × σ

/-- What a run of the handler leaves behind: the returned error (`none` for
`nil`), the stack record the caller passed by pointer, and the world. -/
structure Outcome (σ : Type) where
  err : Option HandlerError
  stack : Stack
  world : σ

/-! ## The stack handler -/

/-- Method `Validate` of `kubernetesFileStackUpdatePayload` (lines 38-44). -/
def kubernetesFileStackUpdatePayload.Validate
    (payload : kubernetesFileStackUpdatePayload) : Option GoError :=
  if payload.StackFileContent.length == 0 then
    some "Invalid stack file content"
  else
    none

/-- Method `Validate` of `kubernetesGitStackUpdatePayload` (lines 46-52). -/
def kubernetesGitStackUpdatePayload.Validate {σ : Type} (handler : Handler σ)
    (payload : kubernetesGitStackUpdatePayload) : Option GoError :=
  match handler.ValidateAutoUpdateSettings payload.AutoUpdate with
  | some err => some err
  | none => none

/-- The start of the Git branch (lines 56-59), `if stack.AutoUpdate != nil`:
stop the autoupdate job if there is any. -/
def updateKubernetesStackGitStop {σ : Type} (handler : Handler σ) (stack : Stack) (w : σ) : σ :=
  match stack.AutoUpdate with
  | some autoUpdate => handler.StopAutoupdate stack.ID autoUpdate.JobID w
  | none => w

/-- The end of the Git branch (lines 88-96), from
`if payload.AutoUpdate != nil && payload.AutoUpdate.Interval != ""` to
`return nil`.  It runs with `stack.AutoUpdate` being the pointer
`payload.AutoUpdate` (assigned before), so `stack.AutoUpdate.Interval` is the
payload's interval and the job id is written into that record. -/
def updateKubernetesStackGitStart {σ : Type} (handler : Handler σ)
    (payload : kubernetesGitStackUpdatePayload) (stack : Stack) (w : σ) : Outcome σ :=
  match payload.AutoUpdate with
  | some autoUpdate =>
    if autoUpdate.Interval != "" then
      match handler.StartAutoupdate stack.ID autoUpdate.Interval w with
      | (.error e, w) => ⟨some e, stack, w⟩
      | (.ok jobID, w) =>
        ⟨none, { stack with AutoUpdate := some { autoUpdate with JobID := jobID } }, w⟩
    else
      ⟨none, stack, w⟩
  | none => ⟨none, stack, w⟩

/-- The Git branch of `updateKubernetesStack` (lines 55-97, the body of
`if stack.GitConfig != nil`), entered with `stack.GitConfig = some gitConfig`.
The record is passed by pointer in the source; here every assignment to it
makes the next value of `stack`. -/
def updateKubernetesStackGit {σ : Type} (handler : Handler σ) (r : StackRequest)
    (stack : Stack) (gitConfig : RepoConfig) (w : σ) : Outcome σ :=
  let w := updateKubernetesStackGitStop handler stack w
  match DecodeAndValidateJSONPayload r.gitBody
      (kubernetesGitStackUpdatePayload.Validate handler) with
  | .error err => ⟨some (BadRequest "Invalid request payload" (some err)), stack, w⟩
  | .ok payload =>
    let gitConfig := { gitConfig with ReferenceName := payload.RepositoryReferenceName }
    let gitConfig := { gitConfig with TLSSkipVerify := payload.TLSSkipVerify }
    let gitConfig := { gitConfig with Authentication := none }
    let stack := { stack with GitConfig := some gitConfig, AutoUpdate := payload.AutoUpdate }
    if payload.RepositoryAuthentication then
      let password := payload.RepositoryPassword
      let password :=
        if password == "" then
          match stack.GitConfig with
          | some gc =>
            match gc.Authentication with
            | some prior => prior.Password
            | none => password
          | none => password
        else
          password
      let auth : GitAuthentication :=
        { Username := payload.RepositoryUsername, Password := password }
      let gitConfig := { gitConfig with Authentication := some auth }
      let stack := { stack with GitConfig := some gitConfig }
      match handler.LatestCommitID gitConfig.URL gitConfig.ReferenceName
          auth.Username auth.Password gitConfig.TLSSkipVerify w with
      | (.error err, w) =>
        ⟨some (InternalServerError "Unable to fetch git repository" (some err)), stack, w⟩
      | (.ok _, w) => updateKubernetesStackGitStart handler payload stack w
    else
      updateKubernetesStackGitStart handler payload stack w

/-- The block of the file branch that refreshes the ECR registry secret if
needed (lines 124-130): `GetKubeClient`, and `RefreshEcrSecret` when `err == nil`. -/
def updateKubernetesStackRefreshEcr {σ : Type} (handler : Handler σ) (stack : Stack)
    (endpoint : Endpoint) (w : σ) : σ :=
  match handler.GetKubeClient endpoint w with
  | (.ok cli, w) => handler.RefreshEcrSecret cli endpoint stack.Namespace w
  | (.error _, w) => w

/-- The end of the file branch (lines 124-158), from the ECR secret refresh to
`return nil`. -/
def updateKubernetesStackFileDeploy {σ : Type} (handler : Handler σ)
    (payload : kubernetesFileStackUpdatePayload) (tokenData : TokenData)
    (tempFileDir : String) (stack : Stack) (endpoint : Endpoint) (w : σ) : Outcome σ :=
  let w := updateKubernetesStackRefreshEcr handler stack endpoint w
  -- Use temp dir as the stack project path for deployment
  let stack := { stack with ProjectPath := tempFileDir }
  match handler.deployKubernetesStack tokenData.ID endpoint stack
      { StackID := stack.ID, StackName := stack.Name, Owner := stack.CreatedBy,
        Kind := "content" } w with
  | (.error err, w) =>
    ⟨some (InternalServerError "Unable to deploy Kubernetes stack via file content"
      (some err)), stack, w⟩
  | (.ok _, w) =>
    let stackFolder := toString stack.ID
    match handler.UpdateStoreStackFileFromBytes stackFolder stack.EntryPoint
        payload.StackFileContent w with
    | (.error err, w) =>
      -- a rollback error is logged only
      let w := (handler.RollbackStackFile stackFolder stack.EntryPoint w).2
      ⟨some (InternalServerError "Unable to persist Kubernetes Manifest file on disk"
        (some err)), stack, w⟩
    | (.ok projectPath, w) =>
      let stack := { stack with ProjectPath := projectPath }
      let w := handler.RemoveStackFileBackup stackFolder stack.EntryPoint w
      ⟨none, stack, w⟩

/-- The part of the file branch that runs after `defer os.RemoveAll(tempFileDir)`
has been registered (lines 113-158). -/
def updateKubernetesStackFileBody {σ : Type} (handler : Handler σ)
    (payload : kubernetesFileStackUpdatePayload) (tokenData : TokenData)
    (tempFileDir : String) (stack : Stack) (endpoint : Endpoint) (w : σ) : Outcome σ :=
  match handler.WriteToFile (handler.JoinPaths tempFileDir stack.EntryPoint)
      payload.StackFileContent w with
  | (some err, w) =>
    ⟨some (InternalServerError "Failed to persist deployment file in a temp directory"
      (some err)), stack, w⟩
  | (none, w) =>
    if payload.StackName != stack.Name then
      let stack := { stack with Name := payload.StackName }
      match handler.StackUpdate stack.ID stack w with
      | (some err, w) =>
        ⟨some (InternalServerError "Failed to update stack name" (some err)), stack, w⟩
      | (none, w) =>
        updateKubernetesStackFileDeploy handler payload tokenData tempFileDir stack endpoint w
    else
      updateKubernetesStackFileDeploy handler payload tokenData tempFileDir stack endpoint w

/-- The file branch of `updateKubernetesStack` (lines 99-158, the code after the
`if stack.GitConfig != nil` block). -/
def updateKubernetesStackFile {σ : Type} (handler : Handler σ) (r : StackRequest)
    (stack : Stack) (endpoint : Endpoint) (w : σ) : Outcome σ :=
  match DecodeAndValidateJSONPayload r.fileBody
      kubernetesFileStackUpdatePayload.Validate with
  | .error err => ⟨some (BadRequest "Invalid request payload" (some err)), stack, w⟩
  | .ok payload =>
    match r.tokenData with
    | .error err =>
      ⟨some (BadRequest "Failed to retrieve user token data" (some err)), stack, w⟩
    | .ok tokenData =>
      match handler.MkdirTemp "" "kub_file_content" w with
      | (tempFileDir, w) =>
        let out := updateKubernetesStackFileBody handler payload tokenData tempFileDir
          stack endpoint w
        -- defer os.RemoveAll(tempFileDir)
        { out with world := handler.RemoveAll tempFileDir out.world }

/-- The handler `updateKubernetesStack` (line 54): the Git branch when the
record has a `GitConfig`, the file branch otherwise. -/
def updateKubernetesStack {σ : Type} (handler : Handler σ) (r : StackRequest)
    (stack : Stack) (endpoint : Endpoint) (w : σ) : Outcome σ :=
  match stack.GitConfig with
  | some gitConfig => updateKubernetesStackGit handler r stack gitConfig w
  | none => updateKubernetesStackFile handler r stack endpoint w

/-! ## Observing the collaborator calls -/

/-- One collaborator call of the stack handler, with its arguments and, where
the handler reads it, its result. -/
inductive Call where
  | StopAutoupdate (stackID : Int) (jobID : String)
  | StartAutoupdate (stackID : Int) (interval : String) (res : Except HandlerError String)
  | LatestCommitID (url ref user pass : String) (tlsSkipVerify : Bool)
      (res : Except GoError String)
  | StackUpdate (id : Int) (stack : Stack) (res : Option GoError)
  | GetKubeClient (endpoint : Endpoint) (res : Except GoError KubeClient)
  | RefreshEcrSecret (cli : KubeClient) (endpoint : Endpoint) (ns : String)
  | deployKubernetesStack (userID : Int) (endpoint : Endpoint) (stack : Stack)
      (labels : KubeAppLabels) (res : Except GoError String)
  | UpdateStoreStackFileFromBytes (folder file data : String) (res : Except GoError String)
  | RollbackStackFile (folder file : String) (res : Option GoError)
  | RemoveStackFileBackup (folder file : String)
  | MkdirTemp (dir : String)
  | RemoveAll (dir : String)
  | WriteToFile (path data : String) (res : Option GoError)

/-- The collaborators `handler`, each call also appended to a log kept next to
the world.  The results and the effect on the world are those of `handler`. -/
def traced {σ : Type} (handler : Handler σ) : Handler (σ × List Call) where
  ValidateAutoUpdateSettings := handler.ValidateAutoUpdateSettings
  JoinPaths := handler.JoinPaths
  StopAutoupdate := fun id job w =>
    (handler.StopAutoupdate id job w.1, w.2 ++ [Call.StopAutoupdate id job])
  StartAutoupdate := fun id interval w =>
    let res := handler.StartAutoupdate id interval w.1
    (res.1, (res.2, w.2 ++ [Call.StartAutoupdate id interval res.1]))
  LatestCommitID := fun url ref user pass tls w =>
    let res := handler.LatestCommitID url ref user pass tls w.1
    (res.1, (res.2, w.2 ++ [Call.LatestCommitID url ref user pass tls res.1]))
  StackUpdate := fun id stack w =>
    let res := handler.StackUpdate id stack w.1
    (res.1, (res.2, w.2 ++ [Call.StackUpdate id stack res.1]))
  GetKubeClient := fun endpoint w =>
    let res := handler.GetKubeClient endpoint w.1
    (res.1, (res.2, w.2 ++ [Call.GetKubeClient endpoint res.1]))
  RefreshEcrSecret := fun cli endpoint ns w =>
    (handler.RefreshEcrSecret cli endpoint ns w.1, w.2 ++ [Call.RefreshEcrSecret cli endpoint ns])
  deployKubernetesStack := fun userID endpoint stack labels w =>
    let res := handler.deployKubernetesStack userID endpoint stack labels w.1
    (res.1, (res.2, w.2 ++ [Call.deployKubernetesStack userID endpoint stack labels res.1]))
  UpdateStoreStackFileFromBytes := fun folder file data w =>
    let res := handler.UpdateStoreStackFileFromBytes folder file data w.1
    (res.1, (res.2, w.2 ++ [Call.UpdateStoreStackFileFromBytes folder file data res.1]))
  RollbackStackFile := fun folder file w =>
    let res := handler.RollbackStackFile folder file w.1
    (res.1, (res.2, w.2 ++ [Call.RollbackStackFile folder file res.1]))
  RemoveStackFileBackup := fun folder file w =>
    (handler.RemoveStackFileBackup folder file w.1, w.2 ++ [Call.RemoveStackFileBackup folder file])
  MkdirTemp := fun dir pat w =>
    let res := handler.MkdirTemp dir pat w.1
    (res.1, (res.2, w.2 ++ [Call.MkdirTemp res.1]))
  RemoveAll := fun dir w =>
    (handler.RemoveAll dir w.1, w.2 ++ [Call.RemoveAll dir])
  WriteToFile := fun path data w =>
    let res := handler.WriteToFile path data w.1
    (res.1, (res.2, w.2 ++ [Call.WriteToFile path data res.1]))

/-- Whether a call is a Scheduler call (`StopAutoupdate` or `StartAutoupdate`). -/
def Call.isScheduler : Call → Bool
  | .StopAutoupdate _ _ => true
  | .StartAutoupdate _ _ _ => true
  | _ => false

/-- Whether a call is one of the durable FileStore operations (update,
rollback, removeBackup). -/
def Call.isDurableFileOp : Call → Bool
  | .UpdateStoreStackFileFromBytes _ _ _ _ => true
  | .RollbackStackFile _ _ _ => true
  | .RemoveStackFileBackup _ _ => true
  | _ => false

/-- Whether a call is `DataStore.Stack().Update`. -/
def Call.isStackUpdate : Call → Bool
  | .StackUpdate _ _ _ => true
  | _ => false

/-- Whether a call is `deployKubernetesStack`. -/
def Call.isDeploy : Call → Bool
  | .deployKubernetesStack _ _ _ _ _ => true
  | _ => false

/-- Whether a call is `StartAutoupdate`. -/
def Call.isStart : Call → Bool
  | .StartAutoupdate _ _ _ => true
  | _ => false

/-- Whether a call is the Git probe `LatestCommitID`. -/
def Call.isProbe : Call → Bool
  | .LatestCommitID _ _ _ _ _ _ => true
  | _ => false

/-- A scripted set of collaborators over a trivial world, for concrete
scenarios: the Git probe, the scheduler start, the record update, the deploy,
the durable write and the rollback give the scripted results; every other call
succeeds. -/
def scripted (validate : Option AutoUpdateSettings → Option GoError)
    (probe : Except GoError String) (start : Except HandlerError String)
    (stackUpdate : Option GoError) (deploy : Except GoError String)
    (store : Except GoError String) (rollback : Option GoError) : Handler Unit where
  ValidateAutoUpdateSettings := validate
  JoinPaths := fun a b => a ++ "/" ++ b
  StopAutoupdate := fun _ _ w => w
  StartAutoupdate := fun _ _ w => (start, w)
  LatestCommitID := fun _ _ _ _ _ w => (probe, w)
  StackUpdate := fun _ _ w => (stackUpdate, w)
  GetKubeClient := fun _ w => (.ok ⟨0⟩, w)
  RefreshEcrSecret := fun _ _ _ w => w
  deployKubernetesStack := fun _ _ _ _ w => (deploy, w)
  UpdateStoreStackFileFromBytes := fun _ _ _ w => (store, w)
  RollbackStackFile := fun _ _ w => (rollback, w)
  RemoveStackFileBackup := fun _ _ w => w
  MkdirTemp := fun _ _ w => ("/tmp/kub_file_content1", w)
  RemoveAll := fun _ w => w
  WriteToFile := fun _ _ w => (none, w)

/-- The Git configuration of the stack `gitStack`: stored credentials with
password "old". -/
def gitStackConfig : RepoConfig where
  URL := "https://git.example/repo.git"
  ReferenceName := "refs/heads/main"
  Authentication := some { Username := "u0", Password := "old" }
  TLSSkipVerify := false

/-- A Git-backed stack with stored credentials and a running autoupdate job "j1". -/
def gitStack : Stack where
  ID := 7
  Name := "web"
  EntryPoint := "deploy.yaml"
  Namespace := "default"
  ProjectPath := "/data/compose/7"
  CreatedBy := "admin"
  GitConfig := some gitStackConfig
  AutoUpdate := some { Interval := "1m", JobID := "j1" }

/-- A file-managed stack. -/
def fileStack : Stack where
  ID := 7
  Name := "web"
  EntryPoint := "deploy.yaml"
  Namespace := "default"
  ProjectPath := "/data/compose/7"
  CreatedBy := "admin"
  GitConfig := none
  AutoUpdate := none

/-- A request whose body decodes to the given Git payload. -/
def gitRequest (payload : kubernetesGitStackUpdatePayload) : StackRequest where
  gitBody := .ok payload
  fileBody := .error "json: cannot decode"
  tokenData := .ok ⟨1⟩

/-- A request whose body decodes to the given file payload. -/
def fileRequest (payload : kubernetesFileStackUpdatePayload) : StackRequest where
  gitBody := .error "json: cannot decode"
  fileBody := .ok payload
  tokenData := .ok ⟨1⟩

/-- A request whose body decodes to the given file payload and for which
`security.RetrieveTokenData` fails. -/
def fileRequestNoToken (payload : kubernetesFileStackUpdatePayload) : StackRequest where
  gitBody := .error "json: cannot decode"
  fileBody := .ok payload
  tokenData := .error "Unable to find JWT data in request context"

/-- Scenario A of the spec: authentication on, user "u", empty password, no autoUpdate. -/
def payloadKeepPassword : kubernetesGitStackUpdatePayload where
  RepositoryReferenceName := "refs/heads/main"
  RepositoryAuthentication := true
  RepositoryUsername := "u"
  RepositoryPassword := ""
  AutoUpdate := none
  TLSSkipVerify := false

/-- Scenario B of the spec: no authentication, autoUpdate with interval "5m". -/
def payloadRotate : kubernetesGitStackUpdatePayload where
  RepositoryReferenceName := "refs/heads/main"
  RepositoryAuthentication := false
  RepositoryUsername := ""
  RepositoryPassword := ""
  AutoUpdate := some { Interval := "5m", JobID := "" }
  TLSSkipVerify := false

/-- As `payloadRotate`, with authentication on. -/
def payloadRotateAuth : kubernetesGitStackUpdatePayload where
  RepositoryReferenceName := "refs/heads/main"
  RepositoryAuthentication := true
  RepositoryUsername := "u"
  RepositoryPassword := "secret"
  AutoUpdate := some { Interval := "5m", JobID := "" }
  TLSSkipVerify := false

/-- Scenario C and D of the spec: the new manifest "A", the name unchanged. -/
def payloadManifest : kubernetesFileStackUpdatePayload where
  StackFileContent := "A"
  StackName := "web"

/-- The new manifest "A" with the `stackName` field omitted. -/
def payloadOmitName : kubernetesFileStackUpdatePayload where
  StackFileContent := "A"
  StackName := ""

/-- A payload that disables the interval and carries a job id of its own. -/
def payloadOwnJobID : kubernetesGitStackUpdatePayload where
  RepositoryReferenceName := "refs/heads/main"
  RepositoryAuthentication := false
  RepositoryUsername := ""
  RepositoryPassword := ""
  AutoUpdate := some { Interval := "", JobID := "zz" }
  TLSSkipVerify := false

/-- A request whose body is not valid JSON. -/
def undecodableRequest : StackRequest where
  gitBody := .error "unexpected end of JSON input"
  fileBody := .error "unexpected end of JSON input"
  tokenData := .ok ⟨1⟩

/-- Scripted collaborators that all succeed; the scheduler start returns "j2". -/
def allSucceed : Handler Unit :=
  scripted (fun _ => none) (.ok "4f2a9c") (.ok "j2") none (.ok "") (.ok "/data/compose/7") none

/-- Scripted collaborators whose Git probe fails. -/
def probeFails : Handler Unit :=
  scripted (fun _ => none) (.error "authentication required") (.ok "j2") none (.ok "")
    (.ok "/data/compose/7") none

/-- Scripted collaborators whose deploy fails. -/
def deployFails : Handler Unit :=
  scripted (fun _ => none) (.ok "4f2a9c") (.ok "j2") none (.error "apply failed")
    (.ok "/data/compose/7") none

/-- Scripted collaborators whose durable write fails and whose rollback succeeds. -/
def storeFails : Handler Unit :=
  scripted (fun _ => none) (.ok "4f2a9c") (.ok "j2") none (.ok "") (.error "disk full") none

/-- Scripted collaborators whose durable write and rollback both fail. -/
def storeAndRollbackFail : Handler Unit :=
  scripted (fun _ => none) (.ok "4f2a9c") (.ok "j2") none (.ok "") (.error "disk full")
    (some "rollback failed")

/-- Scripted collaborators whose write of the manifest into the temp directory
fails; every other call succeeds. -/
def tempWriteFails : Handler Unit :=
  { allSucceed with WriteToFile := fun _ _ w => (some "no space left on device", w) }

/-- The traced run of the handler from an empty log: the returned error, the
record and (world, calls made in order). -/
def run {σ : Type} (handler : Handler σ) (r : StackRequest) (stack : Stack)
    (endpoint : Endpoint) (w : σ) : Outcome (σ × List Call) :=
  updateKubernetesStack (traced handler) r stack endpoint (w, [])

/-- An outcome of the handler with a log of calls put next to its world. -/
def Outcome.withLog {σ : Type} (out : Outcome σ) (log : List Call) : Outcome (σ × List Call) where
  err := out.err
  stack := out.stack
  world := (out.world, log)

/-- Whether `stack.AutoUpdate.JobID` is populated (a non-empty Go string behind
a non-nil pointer). -/
def Stack.jobIDPopulated (stack : Stack) : Bool :=
  match stack.AutoUpdate with
  | some autoUpdate => autoUpdate.JobID != ""
  | none => false

/-- The populated job id of the record, if any. -/
def Stack.jobID (stack : Stack) : Option String :=
  match stack.AutoUpdate with
  | some autoUpdate => if autoUpdate.JobID != "" then some autoUpdate.JobID else none
  | none => none

/-! ## The Scheduler and the FileStore, from the spec -/

/-- Modelled from the spec: the Scheduler of section 4.2, whose code
(`deployments.StartAutoupdate`, `deployments.StopAutoupdate` and the scheduler
package) is not under src.  "Named periodic jobs keyed by stack id ... at most
one active job per stackId": the live job handle of each stack id, if any. -/
structure Scheduler where
  live : Int → Option String

/-- Modelled from the spec: `stop(stackId, jobHandle)` of section 4.2,
"idempotent; unknown handle is a no-op": the live entry of `stackId` is removed
when it is `jobHandle`, and nothing changes otherwise. -/
def Scheduler.stop (sch : Scheduler) (stackId : Int) (jobHandle : String) : Scheduler where
  live := fun id =>
    if id = stackId ∧ sch.live id = some jobHandle then none else sch.live id

/-- Modelled from the spec: a successful `start(stackId, interval, deps)` of
section 4.2, which "registers a recurring task" and returns its handle: the
live entry of `stackId` becomes that handle. -/
def Scheduler.start (sch : Scheduler) (stackId : Int) (jobHandle : String) : Scheduler where
  live := fun id => if id = stackId then some jobHandle else sch.live id

/-- Modelled from the spec: the effect of one collaborator call on the
Scheduler of section 4.2.  A start that returns an error registers nothing. -/
def Scheduler.step (sch : Scheduler) : Call → Scheduler
  | .StopAutoupdate stackID jobID => sch.stop stackID jobID
  | .StartAutoupdate stackID _ (.ok jobID) => sch.start stackID jobID
  | _ => sch

/-- The Scheduler after a sequence of collaborator calls. -/
def Scheduler.after (sch : Scheduler) (calls : List Call) : Scheduler :=
  calls.foldl Scheduler.step sch

/-- Whether the Scheduler has a live entry for the stack id. -/
def Scheduler.hasLive (sch : Scheduler) (stackId : Int) : Bool :=
  (sch.live stackId).isSome

/-- A Scheduler whose only live job is `jobHandle` for `stackId`. -/
def Scheduler.single (stackId : Int) (jobHandle : String) : Scheduler where
  live := fun id => if id = stackId then some jobHandle else none

/-- Modelled from the spec: the durable side of the FileStore of section 4.3,
whose code (package `filesystem`) is not under src: per (stackFolder, relPath)
the durable bytes and the backup ("at most one backup exists per
(stackFolder, relPath)"). -/
structure FileStore where
  durable : String → String → Option String
  backup : String → String → Option String

/-- Modelled from the spec: where a failed `updateDurable` stopped.  The spec
has it retain a backup and atomically replace the durable copy, and on an
error path has the durable manifest equal "either the pre-update content or a
fully-written post-update content": the failure came before the backup was
taken, after the backup and before the replacement, or after the replacement. -/
inductive UpdateFault where
  | beforeBackup
  | beforeReplace
  | afterReplace
deriving DecidableEq, Repr

/-- Set the entry of one (stackFolder, relPath) in a FileStore table. -/
def setEntry (table : String → String → Option String) (folder file : String)
    (value : Option String) : String → String → Option String :=
  fun a b => if a = folder ∧ b = file then value else table a b

/-- Modelled from the spec: the effect of one collaborator call on the durable
FileStore of section 4.3.
* `updateDurable`: "atomically replace the durable copy, retaining a backup
  until explicit acknowledgment"; a failed one stops where `faultOf` of its
  error says.
* `rollback`: "restore last backup"; one that returns an error restores nothing.
* `removeBackup`: "acknowledge success; discard backup".
Every other call (the per-request temp directory included) leaves the durable
store alone. -/
def FileStore.step (faultOf : GoError → UpdateFault) (fs : FileStore) : Call → FileStore
  | .UpdateStoreStackFileFromBytes folder file data (.ok _) =>
    { durable := setEntry fs.durable folder file (some data),
      backup := setEntry fs.backup folder file (fs.durable folder file) }
  | .UpdateStoreStackFileFromBytes folder file data (.error e) =>
    match faultOf e with
    | .beforeBackup => fs
    | .beforeReplace =>
      { fs with backup := setEntry fs.backup folder file (fs.durable folder file) }
    | .afterReplace =>
      { durable := setEntry fs.durable folder file (some data),
        backup := setEntry fs.backup folder file (fs.durable folder file) }
  | .RollbackStackFile folder file none =>
    match fs.backup folder file with
    | some saved =>
      { durable := setEntry fs.durable folder file (some saved),
        backup := setEntry fs.backup folder file none }
    | none => fs
  | .RemoveStackFileBackup folder file =>
    { fs with backup := setEntry fs.backup folder file none }
  | _ => fs

/-- The durable FileStore after a sequence of collaborator calls. -/
def FileStore.after (faultOf : GoError → UpdateFault) (fs : FileStore)
    (calls : List Call) : FileStore :=
  calls.foldl (FileStore.step faultOf) fs

/-- A FileStore holding `bytes` under `folder/file` and the backup `saved` of
an earlier update that was never acknowledged. -/
def FileStore.withBackup (folder file bytes saved : String) : FileStore where
  durable := fun a b => if a = folder ∧ b = file then some bytes else none
  backup := fun a b => if a = folder ∧ b = file then some saved else none

/-- A FileStore holding `bytes` under `folder/file` and no backup. -/
def FileStore.single (folder file bytes : String) : FileStore where
  durable := fun a b => if a = folder ∧ b = file then some bytes else none
  backup := fun _ _ => none

/-! ## Data model of the user handler -/

/-- Modelled from the spec: the `portainer.User` record (declared outside src);
section 3: `id`, `username`, `role`, optional `password`. -/
structure User where
  ID : Int
  Username : String
  Password : String
  Role : Int
deriving DecidableEq, Repr

/-- Modelled from the spec: the `portainer.Settings` record (declared outside
src); section 3, `authenticationMethod`. -/
structure Settings where
  AuthenticationMethod : Int
deriving DecidableEq, Repr

/-- Modelled from the spec: the constant `portainer.AuthenticationInternal`
(declared outside src; `authenticationMethod ∈ {internal, ldap, oauth}`). -/
def AuthenticationInternal : Int := 1

/-- Modelled from the spec: the constant `portainer.AuthenticationLDAP`. -/
def AuthenticationLDAP : Int := 2

/-- Modelled from the spec: the constant `portainer.AuthenticationOAuth`. -/
def AuthenticationOAuth : Int := 3

/-- The payload of `userCreate` (lines 14-19 of `user_create.go`). -/
structure userCreatePayload where
  Username : String
  Password : String
  Role : Int
deriving DecidableEq, Repr

/-- The HTTP request of `userCreate`: the result of decoding its JSON body. -/
structure UserRequest where
  body : Except GoError userCreatePayload

/-- The collaborators of the user handler; none of them is under src, so each
is a parameter. -/
structure UserHandler (σ : Type) where
  /-- The call `handler.DataStore.User().UserByUsername(name)`: a Go pair
  (user pointer, error). -/
  UserByUsername : String → σ → (Option User × Option GoError) × σ
  /-- The call `handler.DataStore.IsErrObjectNotFound(err)`. -/
  IsErrObjectNotFound : GoError → Bool
  /-- The call `handler.DataStore.Settings().Settings()`. -/
  Settings : σ → Except GoError Settings × σ
  /-- The call `handler.passwordStrengthChecker.Check(password)`. -/
  Check : String → σ → Bool × σ
  /-- The call `handler.CryptoService.Hash(password)`. -/
  Hash : String → σ → Except GoError String × σ
  /-- The call `handler.DataStore.User().Create(user)`. -/
  Create : User → σ → Option GoError × σ
  /-- The function `hideFields`, applied to the record before it is written out. -/
  hideFields : User → User
  /-- The call `response.JSON(w, user)`. -/
  JSON : User → σ → Option HandlerError × σ

/-- Modelled from the spec: the package variable `errUserAlreadyExists`
(declared outside src), the error wrapped by the conflict response. -/
def errUserAlreadyExists : GoError := "User already exists"

/-- Modelled from the spec: the package variable `errCryptoHashFailure`
(declared outside src), the error wrapped when the hash fails. -/
def errCryptoHashFailure : GoError := "Unable to hash data"

/-! ## The user handler -/

/-- Whether the character list `s` has `substr` as a contiguous sublist. -/
def containsChars : List Char → List Char → Bool
  | [], substr => substr.isEmpty
  | c :: cs, substr => substr.isPrefixOf (c :: cs) || containsChars cs substr

/-- Go `strings.Contains(s, substr)`. -/
def stringsContains (s substr : String) : Bool :=
  containsChars s.data substr.data

/-- Method `Validate` of `userCreatePayload` (lines 21-31). -/
def userCreatePayload.Validate (payload : userCreatePayload) : Option GoError :=
  if payload.Username.length == 0 || stringsContains payload.Username " " then
    some "Invalid username. Must not contain any whitespace"
  else if payload.Role != 1 && payload.Role != 2 then
    some "Invalid role value. Value must be one of: 1 (administrator) or 2 (regular user)"
  else
    none

/-- The end of `userCreate` (lines 91-97), from `User().Create(user)` to the
response. -/
def userCreatePersist {σ : Type} (handler : UserHandler σ) (user : User) (w : σ) :
    Option HandlerError × σ :=
  match handler.Create user w with
  | (some e, w) =>
    (some (InternalServerError "Unable to persist user inside the database" (some e)), w)
  | (none, w) => handler.JSON (handler.hideFields user) w

/-- The middle of `userCreate` (lines 60-89), from `if user != nil` to the
password block, entered once the lookup error has been dealt with; `found` is
the looked-up user pointer. -/
def userCreateNew {σ : Type} (handler : UserHandler σ) (payload : userCreatePayload)
    (found : Option User) (w : σ) : Option HandlerError × σ :=
  match found with
  | some _ =>
    (some (Conflict "Another user with the same username already exists"
      (some errUserAlreadyExists)), w)
  | none =>
    let user : User :=
      { ID := 0, Username := payload.Username, Password := "", Role := payload.Role }
    match handler.Settings w with
    | (.error e, w) =>
      (some (InternalServerError "Unable to retrieve settings from the database" (some e)), w)
    | (.ok settings, w) =>
      -- when ldap/oauth is on, can only add users without password
      if (settings.AuthenticationMethod == AuthenticationLDAP
          || settings.AuthenticationMethod == AuthenticationOAuth)
          && payload.Password != "" then
        let errMsg :=
          "A user with password can not be created when authentication method is Oauth or LDAP"
        (some (BadRequest errMsg (some errMsg)), w)
      else if settings.AuthenticationMethod == AuthenticationInternal then
        match handler.Check payload.Password w with
        | (false, w) =>
          (some (BadRequest "Password does not meet the requirements" none), w)
        | (true, w) =>
          match handler.Hash payload.Password w with
          | (.error _, w) =>
            (some (InternalServerError "Unable to hash user password"
              (some errCryptoHashFailure)), w)
          | (.ok hash, w) => userCreatePersist handler { user with Password := hash } w
      else
        userCreatePersist handler user w

/-- The handler `userCreate` (lines 50-98): the returned error (`none` for
`nil`) and the world. -/
def userCreate {σ : Type} (handler : UserHandler σ) (r : UserRequest) (w : σ) :
    Option HandlerError × σ :=
  match DecodeAndValidateJSONPayload r.body userCreatePayload.Validate with
  | .error err => (some (BadRequest "Invalid request payload" (some err)), w)
  | .ok payload =>
    match handler.UserByUsername payload.Username w with
    | ((user, some err), w) =>
      if !handler.IsErrObjectNotFound err then
        (some (InternalServerError "Unable to retrieve users from the database" (some err)), w)
      else
        userCreateNew handler payload user w
    | ((user, none), w) => userCreateNew handler payload user w

/-- One collaborator call of the user handler, with its arguments and result. -/
inductive UserCall where
  | UserByUsername (name : String) (user : Option User) (err : Option GoError)
  | Settings (res : Except GoError Settings)
  | Check (password : String) (res : Bool)
  | Hash (password : String) (res : Except GoError String)
  | Create (user : User) (res : Option GoError)
  | JSON (user : User) (res : Option HandlerError)

/-- The collaborators `handler`, each call also appended to a log kept next to
the world.  The results and the effect on the world are those of `handler`. -/
def tracedUser {σ : Type} (handler : UserHandler σ) : UserHandler (σ × List UserCall) where
  UserByUsername := fun name w =>
    let res := handler.UserByUsername name w.1
    (res.1, (res.2, w.2 ++ [UserCall.UserByUsername name res.1.1 res.1.2]))
  IsErrObjectNotFound := handler.IsErrObjectNotFound
  Settings := fun w =>
    let res := handler.Settings w.1
    (res.1, (res.2, w.2 ++ [UserCall.Settings res.1]))
  Check := fun password w =>
    let res := handler.Check password w.1
    (res.1, (res.2, w.2 ++ [UserCall.Check password res.1]))
  Hash := fun password w =>
    let res := handler.Hash password w.1
    (res.1, (res.2, w.2 ++ [UserCall.Hash password res.1]))
  Create := fun user w =>
    let res := handler.Create user w.1
    (res.1, (res.2, w.2 ++ [UserCall.Create user res.1]))
  hideFields := handler.hideFields
  JSON := fun user w =>
    let res := handler.JSON user w.1
    (res.1, (res.2, w.2 ++ [UserCall.JSON user res.1]))

/-- The traced run of `userCreate` from an empty log. -/
def runUser {σ : Type} (handler : UserHandler σ) (r : UserRequest) (w : σ) :
    Option HandlerError × σ × List UserCall :=
  userCreate (tracedUser handler) r (w, [])

/-- Whether a call is `User().Create`, the strength check or the hash. -/
def UserCall.isCreateCheckOrHash : UserCall → Bool
  | .Create _ _ => true
  | .Check _ _ => true
  | .Hash _ _ => true
  | _ => false

/-- An in-memory set of collaborators for concrete scenarios: the world is the
list of stored users, the settings are fixed, the strength check asks for
eight characters, and the hash function is a stand-in that tags its input. -/
def memoryUsers (settings : Settings) : UserHandler (List User) where
  UserByUsername := fun name users =>
    match users.find? (fun u => u.Username == name) with
    | some u => ((some u, none), users)
    | none => ((none, some "object not found inside the database"), users)
  IsErrObjectNotFound := fun e => e == "object not found inside the database"
  Settings := fun users => (.ok settings, users)
  Check := fun password users => (decide (8 ≤ password.length), users)
  Hash := fun password users => (.ok ("$2a$10$" ++ password), users)
  Create := fun user users => (none, users ++ [user])
  hideFields := fun user => { user with Password := "" }
  JSON := fun _ users => (none, users)

/-- A stored user named "bob". -/
def bob : User where
  ID := 1
  Username := "bob"
  Password := "$2a$10$secretsecret"
  Role := 2

/-- A payload with the fresh username "alice" and a password of twelve characters. -/
def aliceRequest : UserRequest where
  body := .ok ⟨"alice", "longpassword", 2⟩

/-- Scenario E of the spec: a payload with the fresh username "alice" and the
password "x". -/
def aliceShortRequest : UserRequest where
  body := .ok ⟨"alice", "x", 2⟩

end Portainer

/-! ## The traced collaborators, call by call -/

namespace Portainer

variable {σ : Type}

/-- Tracing: the policy function is unchanged. -/
@[simp]
theorem traced_ValidateAutoUpdateSettings (handler : Handler σ) :
    (traced handler).ValidateAutoUpdateSettings = handler.ValidateAutoUpdateSettings := rfl

/-- Tracing: the path function is unchanged. -/
@[simp]
theorem traced_JoinPaths (handler : Handler σ) :
    (traced handler).JoinPaths = handler.JoinPaths := rfl

/-- Tracing `StopAutoupdate`: the result and the world of the collaborator, and the call
appended to the log. -/
@[simp]
theorem traced_StopAutoupdate (handler : Handler σ) (id : Int) (job : String)
    (w : σ) (log : List Call) :
    (traced handler).StopAutoupdate id job (w, log)
      = (handler.StopAutoupdate id job w, log ++ [Call.StopAutoupdate id job]) := rfl

/-- Tracing `StartAutoupdate`: the result and the world of the collaborator, and the call
appended to the log. -/
@[simp]
theorem traced_StartAutoupdate (handler : Handler σ) (id : Int) (interval : String)
    (w : σ) (log : List Call) :
    (traced handler).StartAutoupdate id interval (w, log)
      = ((handler.StartAutoupdate id interval w).1,
          ((handler.StartAutoupdate id interval w).2,
            log ++ [Call.StartAutoupdate id interval (handler.StartAutoupdate id interval w).1])) :=
  rfl

/-- Tracing `LatestCommitID`: the result and the world of the collaborator, and the call
appended to the log. -/
@[simp]
theorem traced_LatestCommitID (handler : Handler σ) (url ref user pass : String)
    (tls : Bool) (w : σ) (log : List Call) :
    (traced handler).LatestCommitID url ref user pass tls (w, log)
      = ((handler.LatestCommitID url ref user pass tls w).1,
          ((handler.LatestCommitID url ref user pass tls w).2,
            log ++ [Call.LatestCommitID url ref user pass tls
              (handler.LatestCommitID url ref user pass tls w).1])) :=
  rfl

/-- Tracing `StackUpdate`: the result and the world of the collaborator, and the call appended
to the log. -/
@[simp]
theorem traced_StackUpdate (handler : Handler σ) (id : Int) (stack : Stack)
    (w : σ) (log : List Call) :
    (traced handler).StackUpdate id stack (w, log)
      = ((handler.StackUpdate id stack w).1,
          ((handler.StackUpdate id stack w).2,
            log ++ [Call.StackUpdate id stack (handler.StackUpdate id stack w).1])) :=
  rfl

/-- Tracing `GetKubeClient`: the result and the world of the collaborator, and the call appended
to the log. -/
@[simp]
theorem traced_GetKubeClient (handler : Handler σ) (endpoint : Endpoint)
    (w : σ) (log : List Call) :
    (traced handler).GetKubeClient endpoint (w, log)
      = ((handler.GetKubeClient endpoint w).1,
          ((handler.GetKubeClient endpoint w).2,
            log ++ [Call.GetKubeClient endpoint (handler.GetKubeClient endpoint w).1])) :=
  rfl

/-- Tracing `RefreshEcrSecret`: the result and the world of the collaborator, and the call
appended to the log. -/
@[simp]
theorem traced_RefreshEcrSecret (handler : Handler σ) (cli : KubeClient)
    (endpoint : Endpoint) (ns : String) (w : σ) (log : List Call) :
    (traced handler).RefreshEcrSecret cli endpoint ns (w, log)
      = (handler.RefreshEcrSecret cli endpoint ns w,
          log ++ [Call.RefreshEcrSecret cli endpoint ns]) := rfl

/-- Tracing `deployKubernetesStack`: the result and the world of the collaborator, and the call
appended to the log. -/
@[simp]
theorem traced_deployKubernetesStack (handler : Handler σ) (userID : Int)
    (endpoint : Endpoint) (stack : Stack) (labels : KubeAppLabels) (w : σ) (log : List Call) :
    (traced handler).deployKubernetesStack userID endpoint stack labels (w, log)
      = ((handler.deployKubernetesStack userID endpoint stack labels w).1,
          ((handler.deployKubernetesStack userID endpoint stack labels w).2,
            log ++ [Call.deployKubernetesStack userID endpoint stack labels
              (handler.deployKubernetesStack userID endpoint stack labels w).1])) :=
  rfl

/-- Tracing `UpdateStoreStackFileFromBytes`: the result and the world of the collaborator, and
the call appended to the log. -/
@[simp]
theorem traced_UpdateStoreStackFileFromBytes (handler : Handler σ)
    (folder file data : String) (w : σ) (log : List Call) :
    (traced handler).UpdateStoreStackFileFromBytes folder file data (w, log)
      = ((handler.UpdateStoreStackFileFromBytes folder file data w).1,
          ((handler.UpdateStoreStackFileFromBytes folder file data w).2,
            log ++ [Call.UpdateStoreStackFileFromBytes folder file data
              (handler.UpdateStoreStackFileFromBytes folder file data w).1])) :=
  rfl

/-- Tracing `RollbackStackFile`: the result and the world of the collaborator, and the call
appended to the log. -/
@[simp]
theorem traced_RollbackStackFile (handler : Handler σ) (folder file : String)
    (w : σ) (log : List Call) :
    (traced handler).RollbackStackFile folder file (w, log)
      = ((handler.RollbackStackFile folder file w).1,
          ((handler.RollbackStackFile folder file w).2,
            log ++ [Call.RollbackStackFile folder file
              (handler.RollbackStackFile folder file w).1])) :=
  rfl

/-- Tracing `RemoveStackFileBackup`: the result and the world of the collaborator, and the call
appended to the log. -/
@[simp]
theorem traced_RemoveStackFileBackup (handler : Handler σ) (folder file : String)
    (w : σ) (log : List Call) :
    (traced handler).RemoveStackFileBackup folder file (w, log)
      = (handler.RemoveStackFileBackup folder file w,
          log ++ [Call.RemoveStackFileBackup folder file]) := rfl

/-- Tracing `MkdirTemp`: the result and the world of the collaborator, and the call appended to
the log. -/
@[simp]
theorem traced_MkdirTemp (handler : Handler σ) (dir pat : String)
    (w : σ) (log : List Call) :
    (traced handler).MkdirTemp dir pat (w, log)
      = ((handler.MkdirTemp dir pat w).1,
          ((handler.MkdirTemp dir pat w).2,
            log ++ [Call.MkdirTemp (handler.MkdirTemp dir pat w).1])) :=
  rfl

/-- Tracing `RemoveAll`: the result and the world of the collaborator, and the call appended to
the log. -/
@[simp]
theorem traced_RemoveAll (handler : Handler σ) (dir : String)
    (w : σ) (log : List Call) :
    (traced handler).RemoveAll dir (w, log)
      = (handler.RemoveAll dir w, log ++ [Call.RemoveAll dir]) := rfl

/-- Tracing `WriteToFile`: the result and the world of the collaborator, and the call appended
to the log. -/
@[simp]
theorem traced_WriteToFile (handler : Handler σ) (path data : String)
    (w : σ) (log : List Call) :
    (traced handler).WriteToFile path data (w, log)
      = ((handler.WriteToFile path data w).1,
          ((handler.WriteToFile path data w).2,
            log ++ [Call.WriteToFile path data (handler.WriteToFile path data w).1])) :=
  rfl

/-- Tracing does not change the validation of the Git payload. -/
theorem traced_Validate (handler : Handler σ) :
    kubernetesGitStackUpdatePayload.Validate (traced handler)
      = kubernetesGitStackUpdatePayload.Validate handler := rfl

end Portainer

/-! ## Tracing does not change what the handler does -/

namespace Portainer

variable {σ : Type}

/-- Tracing the stop block changes only the log. -/
theorem gitStop_untraced (handler : Handler σ) (stack : Stack) (w : σ) (log : List Call) :
    ∃ log', updateKubernetesStackGitStop (traced handler) stack (w, log)
      = (updateKubernetesStackGitStop handler stack w, log') := by
  cases hau : stack.AutoUpdate with
  | none => exact ⟨log, by simp [updateKubernetesStackGitStop, hau]⟩
  | some prior => exact ⟨_, by simp [updateKubernetesStackGitStop, hau]; rfl⟩

/-- Tracing the end of the Git branch changes only the log. -/
theorem gitStart_untraced (handler : Handler σ) (payload : kubernetesGitStackUpdatePayload)
    (stack : Stack) (w : σ) (log : List Call) :
    ∃ log', updateKubernetesStackGitStart (traced handler) payload stack (w, log)
      = (updateKubernetesStackGitStart handler payload stack w).withLog log' := by
  cases hp : payload.AutoUpdate with
  | none => exact ⟨log, by simp [updateKubernetesStackGitStart, hp, Outcome.withLog]⟩
  | some au =>
    by_cases hi : au.Interval = ""
    · exact ⟨log, by simp [updateKubernetesStackGitStart, hp, hi, Outcome.withLog]⟩
    · simp only [updateKubernetesStackGitStart, hp, traced_StartAutoupdate]
      rcases hs : handler.StartAutoupdate stack.ID au.Interval w with ⟨_ | _, w3⟩ <;>
        exact ⟨_, by simp [hi, Outcome.withLog]; rfl⟩

/-- Tracing the Git branch changes only the log. -/
theorem git_untraced (handler : Handler σ) (r : StackRequest) (stack : Stack)
    (gitConfig : RepoConfig) (w : σ) (log : List Call) :
    ∃ log', updateKubernetesStackGit (traced handler) r stack gitConfig (w, log)
      = (updateKubernetesStackGit handler r stack gitConfig w).withLog log' := by
  obtain ⟨log1, hstop⟩ := gitStop_untraced handler stack w log
  simp only [updateKubernetesStackGit, traced_Validate, hstop]
  rcases hv : DecodeAndValidateJSONPayload r.gitBody
      (kubernetesGitStackUpdatePayload.Validate handler) with e | payload
  · exact ⟨log1, rfl⟩
  simp only []
  cases hauth : payload.RepositoryAuthentication with
  | false =>
    simp only [Bool.false_eq_true, if_false]
    exact gitStart_untraced handler payload _ _ log1
  | true =>
    simp only [if_true, beq_iff_eq, ite_self, traced_LatestCommitID]
    rcases hprobe : handler.LatestCommitID gitConfig.URL payload.RepositoryReferenceName
        payload.RepositoryUsername payload.RepositoryPassword payload.TLSSkipVerify
        (updateKubernetesStackGitStop handler stack w) with ⟨e | sha, w2⟩
    · exact ⟨_, rfl⟩
    · exact gitStart_untraced handler payload _ w2 _

/-- Tracing the ECR refresh block changes only the log. -/
theorem refreshEcr_untraced (handler : Handler σ) (stack : Stack) (endpoint : Endpoint)
    (w : σ) (log : List Call) :
    ∃ log', updateKubernetesStackRefreshEcr (traced handler) stack endpoint (w, log)
      = (updateKubernetesStackRefreshEcr handler stack endpoint w, log') := by
  simp only [updateKubernetesStackRefreshEcr, traced_GetKubeClient]
  rcases hk : handler.GetKubeClient endpoint w with ⟨e | cli, w2⟩
  · exact ⟨_, rfl⟩
  · exact ⟨_, by simp; rfl⟩

/-- Tracing the end of the file branch changes only the log. -/
theorem fileDeploy_untraced (handler : Handler σ) (payload : kubernetesFileStackUpdatePayload)
    (tokenData : TokenData) (tempFileDir : String) (stack : Stack) (endpoint : Endpoint)
    (w : σ) (log : List Call) :
    ∃ log', updateKubernetesStackFileDeploy (traced handler) payload tokenData tempFileDir
        stack endpoint (w, log)
      = (updateKubernetesStackFileDeploy handler payload tokenData tempFileDir stack
          endpoint w).withLog log' := by
  obtain ⟨log1, hk⟩ := refreshEcr_untraced handler stack endpoint w log
  simp only [updateKubernetesStackFileDeploy, hk, traced_deployKubernetesStack]
  rcases hd : handler.deployKubernetesStack tokenData.ID endpoint
      { stack with ProjectPath := tempFileDir }
      ⟨stack.ID, stack.Name, stack.CreatedBy, "content"⟩
      (updateKubernetesStackRefreshEcr handler stack endpoint w) with ⟨e | v, w2⟩
  · exact ⟨_, rfl⟩
  · simp only [traced_UpdateStoreStackFileFromBytes]
    rcases hu : handler.UpdateStoreStackFileFromBytes (toString stack.ID) stack.EntryPoint
        payload.StackFileContent w2 with ⟨e | p, w3⟩
    · exact ⟨_, by simp [Outcome.withLog]; rfl⟩
    · exact ⟨_, by simp [Outcome.withLog]; rfl⟩

/-- Tracing the body of the file branch changes only the log. -/
theorem fileBody_untraced (handler : Handler σ) (payload : kubernetesFileStackUpdatePayload)
    (tokenData : TokenData) (tempFileDir : String) (stack : Stack) (endpoint : Endpoint)
    (w : σ) (log : List Call) :
    ∃ log', updateKubernetesStackFileBody (traced handler) payload tokenData tempFileDir
        stack endpoint (w, log)
      = (updateKubernetesStackFileBody handler payload tokenData tempFileDir stack
          endpoint w).withLog log' := by
  simp only [updateKubernetesStackFileBody, traced_JoinPaths, traced_WriteToFile]
  rcases hw : handler.WriteToFile (handler.JoinPaths tempFileDir stack.EntryPoint)
      payload.StackFileContent w with ⟨_ | e, w2⟩
  · by_cases hname : payload.StackName = stack.Name
    · simp only [hname, bne_self_eq_false, Bool.false_eq_true, if_false]
      exact fileDeploy_untraced handler payload tokenData tempFileDir stack endpoint w2 _
    · have hne : (payload.StackName != stack.Name) = true := by simpa using hname
      simp only [hne, if_true, traced_StackUpdate]
      rcases hu : handler.StackUpdate stack.ID { stack with Name := payload.StackName } w2
        with ⟨_ | e, w3⟩
      · exact fileDeploy_untraced handler payload tokenData tempFileDir _ endpoint w3 _
      · exact ⟨_, rfl⟩
  · exact ⟨_, rfl⟩

/-- The traced run returns the error and the record of the plain handler and
leaves the world of the plain handler: the log of calls is the only addition. -/
theorem run_untraced (handler : Handler σ) (r : StackRequest) (stack : Stack)
    (endpoint : Endpoint) (w : σ) :
    run handler r stack endpoint w
      = (updateKubernetesStack handler r stack endpoint w).withLog
          (run handler r stack endpoint w).world.2 := by
  have key : ∃ log', run handler r stack endpoint w
      = (updateKubernetesStack handler r stack endpoint w).withLog log' := by
    simp only [run, updateKubernetesStack]
    cases hgit : stack.GitConfig with
    | some gitConfig => exact git_untraced handler r stack gitConfig w []
    | none =>
      simp only [updateKubernetesStackFile]
      rcases hv : DecodeAndValidateJSONPayload r.fileBody
          kubernetesFileStackUpdatePayload.Validate with e | payload
      · exact ⟨[], rfl⟩
      rcases ht : r.tokenData with e | tokenData
      · exact ⟨[], rfl⟩
      simp only [traced_MkdirTemp]
      obtain ⟨log1, hb⟩ := fileBody_untraced handler payload tokenData
        (handler.MkdirTemp "" "kub_file_content" w).1 stack endpoint
        (handler.MkdirTemp "" "kub_file_content" w).2
        ([] ++ [Call.MkdirTemp (handler.MkdirTemp "" "kub_file_content" w).1])
      simp only [hb]
      exact ⟨_, by simp [Outcome.withLog]; rfl⟩
  obtain ⟨log', h⟩ := key
  rw [h]
  rfl

end Portainer

/-! ## The shape of a run of the Git branch -/

namespace Portainer

variable {σ : Type}

/-- The start of the Git branch under tracing: `StopAutoupdate` is called once,
with the id and job id of the record as passed in, exactly when the record has
autoUpdate settings. -/
theorem gitStop_shape (handler : Handler σ) (stack : Stack) (w : σ) (log : List Call) :
    ∃ stops,
      updateKubernetesStackGitStop (traced handler) stack (w, log)
          = (updateKubernetesStackGitStop handler stack w, log ++ stops)
        ∧ ((stack.AutoUpdate = none ∧ stops = [])
            ∨ ∃ prior, stack.AutoUpdate = some prior
                ∧ stops = [Call.StopAutoupdate stack.ID prior.JobID]) := by
  cases hau : stack.AutoUpdate with
  | none => exact ⟨[], by simp [updateKubernetesStackGitStop, hau], Or.inl ⟨rfl, rfl⟩⟩
  | some prior =>
    exact ⟨[Call.StopAutoupdate stack.ID prior.JobID],
      by simp [updateKubernetesStackGitStop, hau], Or.inr ⟨prior, rfl, rfl⟩⟩

/-- The end of the Git branch under tracing: either no job is started (no
autoUpdate in the payload, or an empty interval), or `StartAutoupdate` is
called once with the payload's interval and its result decides the outcome. -/
theorem gitStart_shape (handler : Handler σ) (payload : kubernetesGitStackUpdatePayload)
    (stack : Stack) (w : σ) (log : List Call) :
    ((payload.AutoUpdate = none ∨ ∃ au, payload.AutoUpdate = some au ∧ au.Interval = "")
        ∧ updateKubernetesStackGitStart (traced handler) payload stack (w, log)
            = ⟨none, stack, (w, log)⟩)
      ∨ ∃ au w', payload.AutoUpdate = some au ∧ au.Interval ≠ "" ∧
          ((∃ e, updateKubernetesStackGitStart (traced handler) payload stack (w, log)
                = ⟨some e, stack,
                    (w', log ++ [Call.StartAutoupdate stack.ID au.Interval (.error e)])⟩)
            ∨ ∃ j, updateKubernetesStackGitStart (traced handler) payload stack (w, log)
                = ⟨none, { stack with AutoUpdate := some { au with JobID := j } },
                    (w', log ++ [Call.StartAutoupdate stack.ID au.Interval (.ok j)])⟩) := by
  cases hp : payload.AutoUpdate with
  | none => left; simp [updateKubernetesStackGitStart, hp]
  | some au =>
    by_cases hi : au.Interval = ""
    · left; simp [updateKubernetesStackGitStart, hp, hi]
    · right
      refine ⟨au, (handler.StartAutoupdate stack.ID au.Interval w).2, rfl, hi, ?_⟩
      simp only [updateKubernetesStackGitStart, hp, traced_StartAutoupdate]
      rcases hs : handler.StartAutoupdate stack.ID au.Interval w with ⟨_ | _, w3⟩ <;>
        simp [hi]

/-- The record of the Git branch once the payload has been applied, with the
credentials `auth` and the autoUpdate settings `final`. -/
theorem run_git_shape (handler : Handler σ) (r : StackRequest) (stack : Stack)
    (gitConfig : RepoConfig) (endpoint : Endpoint) (w : σ)
    (payload : kubernetesGitStackUpdatePayload)
    (hgit : stack.GitConfig = some gitConfig)
    (hvalid : DecodeAndValidateJSONPayload r.gitBody
      (kubernetesGitStackUpdatePayload.Validate handler) = .ok payload) :
    ∃ (w' : σ) (stops probes starts : List Call) (auth : Option GitAuthentication)
      (err : Option HandlerError) (final : Option AutoUpdateSettings),
      run handler r stack endpoint w
          = ⟨err,
              { stack with
                GitConfig := some { gitConfig with
                  ReferenceName := payload.RepositoryReferenceName,
                  TLSSkipVerify := payload.TLSSkipVerify,
                  Authentication := auth },
                AutoUpdate := final },
              (w', stops ++ (probes ++ starts))⟩
        ∧ ((stack.AutoUpdate = none ∧ stops = [])
            ∨ ∃ prior, stack.AutoUpdate = some prior
                ∧ stops = [Call.StopAutoupdate stack.ID prior.JobID])
        ∧ ((payload.RepositoryAuthentication = false ∧ auth = none ∧ probes = [])
            ∨ (payload.RepositoryAuthentication = true
                ∧ auth = some ⟨payload.RepositoryUsername, payload.RepositoryPassword⟩
                ∧ ∃ res, probes = [Call.LatestCommitID gitConfig.URL
                    payload.RepositoryReferenceName payload.RepositoryUsername
                    payload.RepositoryPassword payload.TLSSkipVerify res]))
        ∧ ((∃ url ref user pass tls e,
              probes = [Call.LatestCommitID url ref user pass tls (.error e)] ∧ starts = []
                ∧ err = some (InternalServerError "Unable to fetch git repository" (some e))
                ∧ final = payload.AutoUpdate)
            ∨ ((∀ url ref user pass tls e,
                  Call.LatestCommitID url ref user pass tls (.error e) ∉ probes)
                ∧ (((payload.AutoUpdate = none
                      ∨ ∃ au, payload.AutoUpdate = some au ∧ au.Interval = "")
                    ∧ starts = [] ∧ err = none ∧ final = payload.AutoUpdate)
                  ∨ ∃ au, payload.AutoUpdate = some au ∧ au.Interval ≠ "" ∧
                      ((∃ e, starts = [Call.StartAutoupdate stack.ID au.Interval (.error e)]
                          ∧ err = some e ∧ final = payload.AutoUpdate)
                        ∨ ∃ j, starts = [Call.StartAutoupdate stack.ID au.Interval (.ok j)]
                          ∧ err = none ∧ final = some { au with JobID := j })))) := by
  obtain ⟨stops, hstop, hstops⟩ := gitStop_shape handler stack w []
  simp only [run, updateKubernetesStack, hgit, updateKubernetesStackGit, traced_Validate,
    hvalid, hstop, List.nil_append]
  cases hauth : payload.RepositoryAuthentication with
  | false =>
    simp only [Bool.false_eq_true, if_false]
    rcases gitStart_shape handler payload
        { stack with
          GitConfig := some { gitConfig with
            ReferenceName := payload.RepositoryReferenceName,
            TLSSkipVerify := payload.TLSSkipVerify,
            Authentication := none },
          AutoUpdate := payload.AutoUpdate }
        (updateKubernetesStackGitStop handler stack w) stops
      with ⟨hno, heq⟩ | ⟨au, w', hau, hi, ⟨e, heq⟩ | ⟨j, heq⟩⟩
    · exact ⟨_, stops, [], [], none, none, payload.AutoUpdate, by simpa using heq, hstops,
        Or.inl ⟨trivial, rfl, rfl⟩, Or.inr ⟨by simp, Or.inl ⟨hno, rfl, rfl, rfl⟩⟩⟩
    · exact ⟨w', stops, [], _, none, some e, payload.AutoUpdate, by simpa using heq, hstops,
        Or.inl ⟨trivial, rfl, rfl⟩, Or.inr ⟨by simp, Or.inr ⟨au, hau, hi, Or.inl ⟨e, rfl, rfl, rfl⟩⟩⟩⟩
    · exact ⟨w', stops, [], _, none, none, _, by simpa using heq, hstops,
        Or.inl ⟨trivial, rfl, rfl⟩, Or.inr ⟨by simp, Or.inr ⟨au, hau, hi, Or.inr ⟨j, rfl, rfl, rfl⟩⟩⟩⟩
  | true =>
    simp only [if_true, beq_iff_eq, ite_self, traced_LatestCommitID]
    rcases hprobe : handler.LatestCommitID gitConfig.URL payload.RepositoryReferenceName
        payload.RepositoryUsername payload.RepositoryPassword payload.TLSSkipVerify
        (updateKubernetesStackGitStop handler stack w) with ⟨e | sha, w2⟩
    · exact ⟨w2, stops, _, [], _, _, payload.AutoUpdate, by simp, hstops,
        Or.inr ⟨trivial, rfl, _, rfl⟩, Or.inl ⟨_, _, _, _, _, e, rfl, rfl, rfl, rfl⟩⟩
    · simp only []
      rcases gitStart_shape handler payload
          { stack with
            GitConfig := some { gitConfig with
              ReferenceName := payload.RepositoryReferenceName,
              TLSSkipVerify := payload.TLSSkipVerify,
              Authentication :=
                some ⟨payload.RepositoryUsername, payload.RepositoryPassword⟩ },
            AutoUpdate := payload.AutoUpdate }
          w2 (stops ++ [Call.LatestCommitID gitConfig.URL payload.RepositoryReferenceName
            payload.RepositoryUsername payload.RepositoryPassword payload.TLSSkipVerify
            (.ok sha)])
        with ⟨hno, heq⟩ | ⟨au, w', hau, hi, ⟨e, heq⟩ | ⟨j, heq⟩⟩
      · exact ⟨_, stops, _, [], _, none, payload.AutoUpdate, by simpa using heq, hstops,
          Or.inr ⟨trivial, rfl, _, rfl⟩, Or.inr ⟨by simp, Or.inl ⟨hno, rfl, rfl, rfl⟩⟩⟩
      · exact ⟨w', stops, _, _, _, some e, payload.AutoUpdate, by simpa using heq, hstops,
          Or.inr ⟨trivial, rfl, _, rfl⟩,
          Or.inr ⟨by simp, Or.inr ⟨au, hau, hi, Or.inl ⟨e, rfl, rfl, rfl⟩⟩⟩⟩
      · exact ⟨w', stops, _, _, _, none, _, by simpa using heq, hstops,
          Or.inr ⟨trivial, rfl, _, rfl⟩,
          Or.inr ⟨by simp, Or.inr ⟨au, hau, hi, Or.inr ⟨j, rfl, rfl, rfl⟩⟩⟩⟩

end Portainer

/-! ## Claims about the Git branch -/

namespace Portainer

variable {σ : Type}

/-- C5 (Git probe gating).  For a Git-backed stack and a valid payload:
(a) with `repositoryAuthentication = true`, if `LatestCommitID` fails the
handler returns the internal-server error for the probe and `StartAutoupdate`
is never called, whatever the payload's autoUpdate interval;
(b) with `repositoryAuthentication = false`, `LatestCommitID` is not called at
all and `stack.gitConfig.authentication` is absent on return. -/
theorem git_probe_gating (handler : Handler σ) (r : StackRequest) (stack : Stack)
    (gitConfig : RepoConfig) (endpoint : Endpoint) (w : σ)
    (payload : kubernetesGitStackUpdatePayload)
    (hgit : stack.GitConfig = some gitConfig)
    (hvalid : DecodeAndValidateJSONPayload r.gitBody
      (kubernetesGitStackUpdatePayload.Validate handler) = .ok payload) :
    (payload.RepositoryAuthentication = true →
      ∀ url ref user pass tls e,
        Call.LatestCommitID url ref user pass tls (.error e)
            ∈ (run handler r stack endpoint w).world.2 →
        (run handler r stack endpoint w).err
            = some (InternalServerError "Unable to fetch git repository" (some e))
          ∧ (run handler r stack endpoint w).err.map HandlerError.StatusCode = some 500
          ∧ ∀ c ∈ (run handler r stack endpoint w).world.2, c.isStart = false)
    ∧ (payload.RepositoryAuthentication = false →
        (∀ c ∈ (run handler r stack endpoint w).world.2, c.isProbe = false)
          ∧ ∃ gc, (run handler r stack endpoint w).stack.GitConfig = some gc
              ∧ gc.Authentication = none) := by
  obtain ⟨w', stops, probes, starts, auth, err, final, hrun, hstops, hauth, hrest⟩ :=
    run_git_shape handler r stack gitConfig endpoint w payload hgit hvalid
  rw [hrun]
  constructor
  · intro ha url ref user pass tls e hmem
    have hstops' : ∀ c ∈ stops, c.isStart = false ∧ c.isProbe = false := by
      rcases hstops with ⟨_, rfl⟩ | ⟨prior, _, rfl⟩ <;> simp [Call.isStart, Call.isProbe]
    rcases hrest with ⟨url2, ref2, user2, pass2, tls2, e2, rfl, rfl, rfl, rfl⟩ | ⟨hok, hstart⟩
    · simp only [List.append_nil, List.mem_append, List.mem_singleton] at hmem ⊢
      rcases hmem with hmem | hmem
      · exact absurd (hstops' _ hmem).2 (by simp [Call.isProbe])
      · injection hmem with _ _ _ _ _ he
        injection he with he
        subst he
        refine ⟨rfl, rfl, ?_⟩
        intro c hc
        rcases hc with hc | hc
        · exact (hstops' c hc).1
        · subst hc; rfl
    · exfalso
      simp only [List.mem_append] at hmem
      rcases hmem with hmem | hmem | hmem
      · exact absurd (hstops' _ hmem).2 (by simp [Call.isProbe])
      · exact hok _ _ _ _ _ _ hmem
      · rcases hauth with ⟨hf, _⟩ | ⟨_, _, res, rfl⟩
        · simp [ha] at hf
        · rcases hstart with ⟨_, rfl, _⟩ | ⟨au, _, _, ⟨e3, rfl, _⟩ | ⟨j, rfl, _⟩⟩ <;>
            simp at hmem
  · intro ha
    rcases hauth with ⟨_, rfl, rfl⟩ | ⟨ht, _⟩
    · refine ⟨?_, _, rfl, rfl⟩
      intro c hc
      simp only [List.nil_append, List.mem_append] at hc
      rcases hc with hc | hc
      · rcases hstops with ⟨_, rfl⟩ | ⟨prior, _, rfl⟩ <;> simp at hc
        subst hc; rfl
      · rcases hrest with ⟨_, _, _, _, _, _, h, _⟩ | ⟨_, h⟩
        · simp at h
        · rcases h with ⟨_, rfl, _⟩ | ⟨au, _, _, ⟨e3, rfl, _⟩ | ⟨j, rfl, _⟩⟩ <;> simp at hc <;>
            subst hc <;> rfl
    · simp [ha] at ht

end Portainer

namespace Portainer

variable {σ : Type}

/-- C4 (autoupdate rotation).  For a Git-backed stack with
`autoUpdate.jobId = prior.JobID`, a valid payload whose autoUpdate interval is
a non-empty string, and a Git probe that does not fail: the Scheduler calls
made by the handler are exactly `stop(stack.id, j1)` followed by
`start(stack.id, interval)`; the stop is the first collaborator call of the
run and is made with the id and job id of the record as passed in (nothing of
the record has been written yet); and when start returns the handle `j2` the
handler returns no error with `stack.autoUpdate.jobId = j2`. -/
theorem autoupdate_rotation (handler : Handler σ) (r : StackRequest)
    (stack : Stack) (gitConfig : RepoConfig) (endpoint : Endpoint) (w : σ)
    (payload : kubernetesGitStackUpdatePayload) (prior next : AutoUpdateSettings)
    (hgit : stack.GitConfig = some gitConfig)
    (hprior : stack.AutoUpdate = some prior)
    (hvalid : DecodeAndValidateJSONPayload r.gitBody
      (kubernetesGitStackUpdatePayload.Validate handler) = .ok payload)
    (hnext : payload.AutoUpdate = some next)
    (hinterval : next.Interval ≠ "")
    (hprobe : ∀ url ref user pass tls e,
      Call.LatestCommitID url ref user pass tls (.error e)
        ∉ (run handler r stack endpoint w).world.2) :
    ∃ res,
      (run handler r stack endpoint w).world.2.filter Call.isScheduler
          = [Call.StopAutoupdate stack.ID prior.JobID,
             Call.StartAutoupdate stack.ID next.Interval res]
        ∧ (run handler r stack endpoint w).world.2.head?
            = some (Call.StopAutoupdate stack.ID prior.JobID)
        ∧ (∀ j2, res = .ok j2 →
            (run handler r stack endpoint w).err = none
              ∧ (run handler r stack endpoint w).stack.AutoUpdate
                  = some { next with JobID := j2 })
        ∧ (∀ e, res = .error e → (run handler r stack endpoint w).err = some e) := by
  obtain ⟨w', stops, probes, starts, auth, err, final, hrun, hstops, hauth, hrest⟩ :=
    run_git_shape handler r stack gitConfig endpoint w payload hgit hvalid
  rw [hrun] at hprobe ⊢
  have hs : stops = [Call.StopAutoupdate stack.ID prior.JobID] := by
    rcases hstops with ⟨hn, _⟩ | ⟨p, hp, rfl⟩
    · simp [hprior] at hn
    · rw [hprior] at hp; injection hp with hp; subst hp; rfl
  subst hs
  have hp : probes.filter Call.isScheduler = [] := by
    rcases hauth with ⟨_, _, rfl⟩ | ⟨_, _, res, rfl⟩ <;> simp [Call.isScheduler]
  rcases hrest with ⟨url, ref, user, pass, tls, e, rfl, _⟩ | ⟨_, hstart⟩
  · exact absurd (by simp) (hprobe url ref user pass tls e)
  · rcases hstart with ⟨hno, _⟩ | ⟨au, hau, _, hcase⟩
    · rcases hno with hno | ⟨au, hau, hi⟩
      · simp [hnext] at hno
      · rw [hnext] at hau; injection hau with hau; subst hau; exact absurd hi hinterval
    · rw [hnext] at hau; injection hau with hau; subst hau
      rcases hcase with ⟨e, rfl, rfl, rfl⟩ | ⟨j, rfl, rfl, rfl⟩
      · exact ⟨.error e, by simp [List.filter_append, hp, Call.isScheduler], by simp,
          by simp, by simp⟩
      · exact ⟨.ok j, by simp [List.filter_append, hp, Call.isScheduler], by simp,
          by simp, by simp⟩

/-- C3, as amended (job-id/scheduler invariant of the Git branch).  If before
the call the Scheduler's live entry for `stack.id` is exactly the populated
`stack.autoUpdate.jobId` (no entry when it is not populated), the payload is
valid, the payload's autoUpdate carries no job id of its own unless a job is
started for it, and a started job has a non-empty handle, then on return (with
success, a failed Git probe or a failed start) the live entry is again exactly
the populated `stack.autoUpdate.jobId`; in particular the job id is populated
exactly when the Scheduler has a live entry for `stack.id`. -/
theorem jobid_scheduler_invariant (handler : Handler σ) (r : StackRequest) (stack : Stack)
    (gitConfig : RepoConfig) (endpoint : Endpoint) (w : σ)
    (payload : kubernetesGitStackUpdatePayload) (sch : Scheduler)
    (hgit : stack.GitConfig = some gitConfig)
    (hvalid : DecodeAndValidateJSONPayload r.gitBody
      (kubernetesGitStackUpdatePayload.Validate handler) = .ok payload)
    (hpre : sch.live stack.ID = stack.jobID)
    (hown : ∀ au, payload.AutoUpdate = some au →
      au.JobID = "" ∨ ∃ id i j,
        Call.StartAutoupdate id i (.ok j) ∈ (run handler r stack endpoint w).world.2)
    (hfresh : ∀ id i j,
      Call.StartAutoupdate id i (.ok j) ∈ (run handler r stack endpoint w).world.2 → j ≠ "") :
    (sch.after (run handler r stack endpoint w).world.2).live stack.ID
        = (run handler r stack endpoint w).stack.jobID
      ∧ ((run handler r stack endpoint w).stack.jobIDPopulated = true
          ↔ (sch.after (run handler r stack endpoint w).world.2).hasLive
              (run handler r stack endpoint w).stack.ID = true) := by
  obtain ⟨w', stops, probes, starts, auth, err, final, hrun, hstops, hauth, hrest⟩ :=
    run_git_shape handler r stack gitConfig endpoint w payload hgit hvalid
  rw [hrun] at hown hfresh ⊢
  simp only [Scheduler.after, List.foldl_append] at *
  -- after the stop no job of this stack is live
  have h1 : (stops.foldl Scheduler.step sch).live stack.ID = none := by
    rcases hstops with ⟨hn, rfl⟩ | ⟨p, hp, rfl⟩
    · simpa [Stack.jobID, hn] using hpre
    · simp only [Stack.jobID, hp] at hpre
      simp only [List.foldl, Scheduler.step, Scheduler.stop]
      split at hpre <;> simp_all
  -- the probe does not touch the Scheduler
  have h2 : probes.foldl Scheduler.step (stops.foldl Scheduler.step sch)
      = stops.foldl Scheduler.step sch := by
    rcases hauth with ⟨_, _, rfl⟩ | ⟨_, _, res, rfl⟩ <;> simp [Scheduler.step]
  rw [h2]
  have hnoS : ∀ id i j, Call.StartAutoupdate id i (.ok j) ∉ stops ++ probes := by
    intro id i j hmem
    rcases List.mem_append.1 hmem with hmem | hmem
    · rcases hstops with ⟨_, rfl⟩ | ⟨p, _, rfl⟩ <;> simp at hmem
    · rcases hauth with ⟨_, _, rfl⟩ | ⟨_, _, res, rfl⟩ <;> simp at hmem
  have key : (starts.foldl Scheduler.step (stops.foldl Scheduler.step sch)).live stack.ID
      = Stack.jobID { stack with AutoUpdate := final } := by
    rcases hrest with ⟨_, _, _, _, _, e, _, rfl, _, rfl⟩ | ⟨_, ⟨_, rfl, _, rfl⟩ |
      ⟨au, hau, _, ⟨e, rfl, _, rfl⟩ | ⟨j, rfl, _, rfl⟩⟩⟩
    · simp only [List.foldl, h1, Stack.jobID]
      cases hp : payload.AutoUpdate with
      | none => rfl
      | some au =>
        rcases hown au hp with h | ⟨id, i, j, hmem⟩
        · simp [h]
        · exact absurd (by simpa using hmem) (hnoS id i j)
    · simp only [List.foldl, h1, Stack.jobID]
      cases hp : payload.AutoUpdate with
      | none => rfl
      | some au =>
        rcases hown au hp with h | ⟨id, i, j, hmem⟩
        · simp [h]
        · exact absurd (by simpa using hmem) (hnoS id i j)
    · simp only [List.foldl, Scheduler.step, h1, Stack.jobID, hau]
      rcases hown au hau with h | ⟨id, i, j, hmem⟩
      · simp [h]
      · have hmem' : Call.StartAutoupdate id i (.ok j) ∈ stops ++ probes := by
          simpa using hmem
        exact absurd hmem' (hnoS id i j)
    · have hj : j ≠ "" := hfresh stack.ID au.Interval j (by simp)
      simp [List.foldl, Scheduler.step, Scheduler.start, Stack.jobID, hj]
  refine ⟨key, ?_⟩
  simp only [Scheduler.hasLive, key]
  simp only [Stack.jobIDPopulated, Stack.jobID]
  cases final with
  | none => simp
  | some au => by_cases h : au.JobID = "" <;> simp [h]

end Portainer

/-! ## The Git branch on the scenarios of the spec -/

namespace Portainer

/-- C1 (credential carry-forward), the code at scenario A of the spec.  The
stack stores the password "old"; the payload has authentication on, user "u"
and an empty password; every collaborator succeeds.  The handler returns no
error, the stored authentication is `("u", "")` and `LatestCommitID` is called
with the empty password: the previous password is not carried forward, because
`stack.GitConfig.Authentication` is set to nil before it is read. -/
theorem credential_carry_forward_dropped :
    (run allSucceed (gitRequest payloadKeepPassword) gitStack ⟨1⟩ ()).err = none
      ∧ (run allSucceed (gitRequest payloadKeepPassword) gitStack ⟨1⟩ ()).stack.GitConfig
          = some { gitStackConfig with Authentication := some ⟨"u", ""⟩ }
      ∧ (run allSucceed (gitRequest payloadKeepPassword) gitStack ⟨1⟩ ()).world.2
          = [Call.StopAutoupdate 7 "j1",
             Call.LatestCommitID "https://git.example/repo.git" "refs/heads/main" "u" "" false
               (.ok "4f2a9c")] :=
  ⟨rfl, rfl, rfl⟩

/-- On every run of the Git branch with a valid payload and authentication on,
the stored password is the payload password verbatim and the probe is made with
it, whatever password the record held before the call. -/
theorem git_stored_password_is_payload_password {σ : Type} (handler : Handler σ)
    (r : StackRequest) (stack : Stack) (gitConfig : RepoConfig) (endpoint : Endpoint) (w : σ)
    (payload : kubernetesGitStackUpdatePayload)
    (hgit : stack.GitConfig = some gitConfig)
    (hvalid : DecodeAndValidateJSONPayload r.gitBody
      (kubernetesGitStackUpdatePayload.Validate handler) = .ok payload)
    (hauth : payload.RepositoryAuthentication = true) :
    (∃ gc, (run handler r stack endpoint w).stack.GitConfig = some gc
        ∧ gc.Authentication
            = some ⟨payload.RepositoryUsername, payload.RepositoryPassword⟩)
      ∧ ∃ res, Call.LatestCommitID gitConfig.URL payload.RepositoryReferenceName
          payload.RepositoryUsername payload.RepositoryPassword payload.TLSSkipVerify res
            ∈ (run handler r stack endpoint w).world.2 := by
  obtain ⟨w', stops, probes, starts, auth, err, final, hrun, _, hshape, _⟩ :=
    run_git_shape handler r stack gitConfig endpoint w payload hgit hvalid
  rw [hrun]
  rcases hshape with ⟨hf, _⟩ | ⟨_, rfl, res, rfl⟩
  · simp [hauth] at hf
  · exact ⟨⟨_, rfl, rfl⟩, res, by simp⟩

/-- Scenario A of the spec as an instance: the stored password and the probe password are the
payload's empty password. -/
theorem git_stored_password_is_payload_password_witness :
    gitStack.GitConfig = some gitStackConfig
      ∧ DecodeAndValidateJSONPayload (gitRequest payloadKeepPassword).gitBody
          (kubernetesGitStackUpdatePayload.Validate allSucceed) = .ok payloadKeepPassword
      ∧ payloadKeepPassword.RepositoryAuthentication = true
      ∧ ((∃ gc, (run allSucceed (gitRequest payloadKeepPassword) gitStack ⟨1⟩
              ()).stack.GitConfig = some gc
            ∧ gc.Authentication
                = some ⟨payloadKeepPassword.RepositoryUsername,
                    payloadKeepPassword.RepositoryPassword⟩)
          ∧ ∃ res, Call.LatestCommitID gitStackConfig.URL
              payloadKeepPassword.RepositoryReferenceName
              payloadKeepPassword.RepositoryUsername payloadKeepPassword.RepositoryPassword
              payloadKeepPassword.TLSSkipVerify res
                ∈ (run allSucceed (gitRequest payloadKeepPassword) gitStack ⟨1⟩ ()).world.2) :=
  ⟨rfl, rfl, rfl,
    git_stored_password_is_payload_password allSucceed (gitRequest payloadKeepPassword)
      gitStack gitStackConfig ⟨1⟩ () payloadKeepPassword rfl rfl rfl⟩

/-- C3, counterexample.  The stack has the job id "j1" and the Scheduler has
the live job "j1" for it, so the invariant holds before the call.  The request
body does not decode: the handler has already stopped the job when it returns
the bad-request error, and the record still carries "j1".  On return the job id
is populated and the Scheduler has no live entry for the stack. -/
theorem jobid_scheduler_invariant_counterexample :
    (gitStack.jobIDPopulated = true ↔ (Scheduler.single 7 "j1").hasLive gitStack.ID = true)
      ∧ (run allSucceed undecodableRequest gitStack ⟨1⟩ ()).err
          = some (BadRequest "Invalid request payload" (some "unexpected end of JSON input"))
      ∧ ¬ ((run allSucceed undecodableRequest gitStack ⟨1⟩ ()).stack.jobIDPopulated = true
            ↔ ((Scheduler.single 7 "j1").after
                (run allSucceed undecodableRequest gitStack ⟨1⟩ ()).world.2).hasLive
                  (run allSucceed undecodableRequest gitStack ⟨1⟩ ()).stack.ID = true) := by
  decide

/-- C3, witness (scenario B of the spec): the live job "j1" is stopped, the job "j2" is started
and recorded, and the invariant holds on return. -/
theorem jobid_scheduler_invariant_witness :
    gitStack.GitConfig = some gitStackConfig
      ∧ DecodeAndValidateJSONPayload (gitRequest payloadRotate).gitBody
          (kubernetesGitStackUpdatePayload.Validate allSucceed) = .ok payloadRotate
      ∧ (Scheduler.single 7 "j1").live gitStack.ID = gitStack.jobID
      ∧ ((Scheduler.single 7 "j1").after
            (run allSucceed (gitRequest payloadRotate) gitStack ⟨1⟩ ()).world.2).live gitStack.ID
          = (run allSucceed (gitRequest payloadRotate) gitStack ⟨1⟩ ()).stack.jobID
      ∧ ((run allSucceed (gitRequest payloadRotate) gitStack ⟨1⟩ ()).stack.jobIDPopulated = true
          ↔ ((Scheduler.single 7 "j1").after
              (run allSucceed (gitRequest payloadRotate) gitStack ⟨1⟩ ()).world.2).hasLive
                (run allSucceed (gitRequest payloadRotate) gitStack ⟨1⟩ ()).stack.ID = true) :=
  ⟨rfl, rfl, by decide,
    jobid_scheduler_invariant allSucceed (gitRequest payloadRotate) gitStack gitStackConfig
      ⟨1⟩ () payloadRotate (Scheduler.single 7 "j1") rfl rfl (by decide)
      (fun au h => Or.inl (by cases h; rfl))
      (fun id i j h => by
        have h' : Call.StartAutoupdate id i (.ok j)
            ∈ [Call.StopAutoupdate 7 "j1", Call.StartAutoupdate 7 "5m" (.ok "j2")] := h
        simp at h'
        simp [h'.2.2])⟩

/-- C4, witness (scenario B of the spec): job "j1", interval "5m", start returns "j2". -/
theorem autoupdate_rotation_witness :
    gitStack.GitConfig = some gitStackConfig
      ∧ gitStack.AutoUpdate = some ⟨"1m", "j1"⟩
      ∧ payloadRotateAuth.AutoUpdate = some ⟨"5m", ""⟩
      ∧ ∃ res,
          (run allSucceed (gitRequest payloadRotateAuth) gitStack ⟨1⟩ ()).world.2.filter
              Call.isScheduler
            = [Call.StopAutoupdate gitStack.ID "j1", Call.StartAutoupdate gitStack.ID "5m" res]
          ∧ (run allSucceed (gitRequest payloadRotateAuth) gitStack ⟨1⟩ ()).world.2.head?
              = some (Call.StopAutoupdate gitStack.ID "j1")
          ∧ (∀ j2, res = .ok j2 →
              (run allSucceed (gitRequest payloadRotateAuth) gitStack ⟨1⟩ ()).err = none
                ∧ (run allSucceed (gitRequest payloadRotateAuth) gitStack ⟨1⟩
                    ()).stack.AutoUpdate = some ⟨"5m", j2⟩)
          ∧ (∀ e, res = .error e →
              (run allSucceed (gitRequest payloadRotateAuth) gitStack ⟨1⟩ ()).err = some e) :=
  ⟨rfl, rfl, rfl,
    autoupdate_rotation allSucceed (gitRequest payloadRotateAuth) gitStack gitStackConfig ⟨1⟩ ()
      payloadRotateAuth ⟨"1m", "j1"⟩ ⟨"5m", ""⟩ rfl rfl rfl rfl (by decide)
      (fun url ref user pass tls e h => by
        have h' : Call.LatestCommitID url ref user pass tls (.error e)
            ∈ [Call.StopAutoupdate 7 "j1",
               Call.LatestCommitID "https://git.example/repo.git" "refs/heads/main" "u"
                 "secret" false (.ok "4f2a9c"),
               Call.StartAutoupdate 7 "5m" (.ok "j2")] := h
        simp at h')⟩

/-- C5, witness: authentication on, the probe fails, the payload asks for an interval of "5m":
internal error and no scheduler start. -/
theorem git_probe_gating_witness :
    gitStack.GitConfig = some gitStackConfig
      ∧ DecodeAndValidateJSONPayload (gitRequest payloadRotateAuth).gitBody
          (kubernetesGitStackUpdatePayload.Validate probeFails) = .ok payloadRotateAuth
      ∧ (run probeFails (gitRequest payloadRotateAuth) gitStack ⟨1⟩ ()).err
          = some (InternalServerError "Unable to fetch git repository"
              (some "authentication required"))
      ∧ (∀ c ∈ (run probeFails (gitRequest payloadRotateAuth) gitStack ⟨1⟩ ()).world.2,
          c.isStart = false) :=
  ⟨rfl, rfl,
    ((git_probe_gating probeFails (gitRequest payloadRotateAuth) gitStack gitStackConfig ⟨1⟩ ()
      payloadRotateAuth rfl rfl).1 rfl "https://git.example/repo.git" "refs/heads/main" "u"
      "secret" false "authentication required"
      (List.mem_cons_of_mem _ (List.Mem.head _))).1,
    ((git_probe_gating probeFails (gitRequest payloadRotateAuth) gitStack gitStackConfig ⟨1⟩ ()
      payloadRotateAuth rfl rfl).1 rfl "https://git.example/repo.git" "refs/heads/main" "u"
      "secret" false "authentication required"
      (List.mem_cons_of_mem _ (List.Mem.head _))).2.2⟩

/-- A payload that carries a job id of its own and starts no job: the handler
returns no error, the record has the payload's job id "zz" and the Scheduler
has no live entry for the stack. -/
theorem payload_job_id_kept :
    (run allSucceed (gitRequest payloadOwnJobID) gitStack ⟨1⟩ ()).err = none
      ∧ (run allSucceed (gitRequest payloadOwnJobID) gitStack ⟨1⟩ ()).stack.jobID = some "zz"
      ∧ ((Scheduler.single 7 "j1").after
            (run allSucceed (gitRequest payloadOwnJobID) gitStack ⟨1⟩ ()).world.2).hasLive 7
          = false := by
  decide

end Portainer

/-! ## The shape of a run of the file branch -/

namespace Portainer

variable {σ : Type}

/-- The ECR refresh block under tracing: `GetKubeClient` is called once, and
`RefreshEcrSecret` after it exactly when the client was obtained. -/
theorem refreshEcr_shape (handler : Handler σ) (stack : Stack) (endpoint : Endpoint)
    (w : σ) (log : List Call) :
    ∃ kube,
      updateKubernetesStackRefreshEcr (traced handler) stack endpoint (w, log)
          = (updateKubernetesStackRefreshEcr handler stack endpoint w, log ++ kube)
        ∧ ((∃ e, kube = [Call.GetKubeClient endpoint (.error e)])
            ∨ ∃ cli, kube = [Call.GetKubeClient endpoint (.ok cli),
                Call.RefreshEcrSecret cli endpoint stack.Namespace]) := by
  simp only [updateKubernetesStackRefreshEcr, traced_GetKubeClient]
  rcases hk : handler.GetKubeClient endpoint w with ⟨e | cli, w2⟩
  · exact ⟨_, rfl, Or.inl ⟨e, rfl⟩⟩
  · exact ⟨[Call.GetKubeClient endpoint (.ok cli),
      Call.RefreshEcrSecret cli endpoint stack.Namespace], by simp, Or.inr ⟨cli, rfl⟩⟩

/-- The end of the file branch under tracing: the ECR refresh, the deploy of
the record with the temp directory as project path, and then, only after a
successful deploy, the durable write followed by the rollback (write failed)
or the removal of the backup (write succeeded). -/
theorem fileDeploy_shape (handler : Handler σ) (payload : kubernetesFileStackUpdatePayload)
    (tokenData : TokenData) (tempFileDir : String) (stack : Stack) (endpoint : Endpoint)
    (w : σ) (log : List Call) :
    ∃ (w' : σ) (kube tail : List Call) (err : Option HandlerError) (final : Stack),
      updateKubernetesStackFileDeploy (traced handler) payload tokenData tempFileDir stack
          endpoint (w, log) = ⟨err, final, (w', log ++ (kube ++ tail))⟩
        ∧ ((∃ e, kube = [Call.GetKubeClient endpoint (.error e)])
            ∨ ∃ cli, kube = [Call.GetKubeClient endpoint (.ok cli),
                Call.RefreshEcrSecret cli endpoint stack.Namespace])
        ∧ ((∃ e,
              tail = [Call.deployKubernetesStack tokenData.ID endpoint
                  { stack with ProjectPath := tempFileDir }
                  ⟨stack.ID, stack.Name, stack.CreatedBy, "content"⟩ (.error e)]
                ∧ err = some (InternalServerError
                    "Unable to deploy Kubernetes stack via file content" (some e))
                ∧ final = { stack with ProjectPath := tempFileDir })
            ∨ (∃ v e rb,
              tail = [Call.deployKubernetesStack tokenData.ID endpoint
                  { stack with ProjectPath := tempFileDir }
                  ⟨stack.ID, stack.Name, stack.CreatedBy, "content"⟩ (.ok v),
                Call.UpdateStoreStackFileFromBytes (toString stack.ID) stack.EntryPoint
                  payload.StackFileContent (.error e),
                Call.RollbackStackFile (toString stack.ID) stack.EntryPoint rb]
                ∧ err = some (InternalServerError
                    "Unable to persist Kubernetes Manifest file on disk" (some e))
                ∧ final = { stack with ProjectPath := tempFileDir })
            ∨ ∃ v p,
              tail = [Call.deployKubernetesStack tokenData.ID endpoint
                  { stack with ProjectPath := tempFileDir }
                  ⟨stack.ID, stack.Name, stack.CreatedBy, "content"⟩ (.ok v),
                Call.UpdateStoreStackFileFromBytes (toString stack.ID) stack.EntryPoint
                  payload.StackFileContent (.ok p),
                Call.RemoveStackFileBackup (toString stack.ID) stack.EntryPoint]
                ∧ err = none
                ∧ final = { stack with ProjectPath := p }) := by
  obtain ⟨kube, hk, hkube⟩ := refreshEcr_shape handler stack endpoint w log
  simp only [updateKubernetesStackFileDeploy, hk, traced_deployKubernetesStack]
  rcases hd : handler.deployKubernetesStack tokenData.ID endpoint
      { stack with ProjectPath := tempFileDir }
      ⟨stack.ID, stack.Name, stack.CreatedBy, "content"⟩
      (updateKubernetesStackRefreshEcr handler stack endpoint w) with ⟨e | v, w2⟩
  · exact ⟨w2, kube, _, _, _, by simp, hkube, Or.inl ⟨e, rfl, rfl, rfl⟩⟩
  · simp only [traced_UpdateStoreStackFileFromBytes]
    rcases hu : handler.UpdateStoreStackFileFromBytes (toString stack.ID) stack.EntryPoint
        payload.StackFileContent w2 with ⟨e | p, w3⟩
    · simp only [traced_RollbackStackFile]
      exact ⟨(handler.RollbackStackFile (toString stack.ID) stack.EntryPoint w3).2, kube, _, _, _,
        by simp, hkube,
        Or.inr (Or.inl ⟨v, e,
          (handler.RollbackStackFile (toString stack.ID) stack.EntryPoint w3).1,
          rfl, rfl, rfl⟩)⟩
    · simp only [traced_RemoveStackFileBackup]
      exact ⟨handler.RemoveStackFileBackup (toString stack.ID) stack.EntryPoint w3, kube, _, _, _,
        by simp, hkube, Or.inr (Or.inr ⟨v, p, rfl, rfl, rfl⟩)⟩

/-- A run of the file branch: either the request is rejected before any
collaborator is called (undecodable or invalid payload, or no token data), or
the temp directory is made, the manifest is written into it, and the run ends
with the deferred removal of the temp directory; in between come, in order,
the rename (when the payload's name differs), the ECR refresh, the deploy and
the durable write. -/
theorem run_file_shape (handler : Handler σ) (r : StackRequest) (stack : Stack)
    (endpoint : Endpoint) (w : σ) (hfile : stack.GitConfig = none) :
    (∃ msg e,
        (DecodeAndValidateJSONPayload r.fileBody kubernetesFileStackUpdatePayload.Validate
            = .error e ∨ r.tokenData = .error e)
          ∧ run handler r stack endpoint w = ⟨some (BadRequest msg (some e)), stack, (w, [])⟩)
      ∨ ∃ payload tokenData,
          DecodeAndValidateJSONPayload r.fileBody kubernetesFileStackUpdatePayload.Validate
              = .ok payload
            ∧ r.tokenData = .ok tokenData
            ∧ ∃ (w' : σ) (tmp : String) (wres : Option GoError) (mid : List Call)
                (err : Option HandlerError) (final : Stack),
                run handler r stack endpoint w
                    = ⟨err, final,
                        (w', [Call.MkdirTemp tmp,
                              Call.WriteToFile (handler.JoinPaths tmp stack.EntryPoint)
                                payload.StackFileContent wres]
                              ++ (mid ++ [Call.RemoveAll tmp]))⟩
                  ∧ ((∃ e, wres = some e ∧ mid = []
                        ∧ err = some (InternalServerError
                            "Failed to persist deployment file in a temp directory" (some e))
                        ∧ final = stack)
                    ∨ (wres = none ∧ payload.StackName ≠ stack.Name
                        ∧ ∃ e, mid = [Call.StackUpdate stack.ID
                              { stack with Name := payload.StackName } (some e)]
                          ∧ err = some (InternalServerError "Failed to update stack name"
                              (some e))
                          ∧ final = { stack with Name := payload.StackName })
                    ∨ (wres = none ∧ ∃ renames kube tail,
                        mid = renames ++ (kube ++ tail)
                          ∧ ((payload.StackName = stack.Name ∧ renames = [])
                              ∨ (payload.StackName ≠ stack.Name
                                  ∧ renames = [Call.StackUpdate stack.ID
                                      { stack with Name := payload.StackName } none]))
                          ∧ ((∃ e, kube = [Call.GetKubeClient endpoint (.error e)])
                              ∨ ∃ cli, kube = [Call.GetKubeClient endpoint (.ok cli),
                                  Call.RefreshEcrSecret cli endpoint stack.Namespace])
                          ∧ ((∃ e,
                                tail = [Call.deployKubernetesStack tokenData.ID endpoint
                                    { stack with Name := payload.StackName, ProjectPath := tmp }
                                    ⟨stack.ID, payload.StackName, stack.CreatedBy, "content"⟩
                                    (.error e)]
                                  ∧ err = some (InternalServerError
                                      "Unable to deploy Kubernetes stack via file content"
                                      (some e))
                                  ∧ final
                                      = { stack with
                                          Name := payload.StackName, ProjectPath := tmp })
                              ∨ (∃ v e rb,
                                tail = [Call.deployKubernetesStack tokenData.ID endpoint
                                    { stack with Name := payload.StackName, ProjectPath := tmp }
                                    ⟨stack.ID, payload.StackName, stack.CreatedBy, "content"⟩
                                    (.ok v),
                                  Call.UpdateStoreStackFileFromBytes (toString stack.ID)
                                    stack.EntryPoint payload.StackFileContent (.error e),
                                  Call.RollbackStackFile (toString stack.ID) stack.EntryPoint rb]
                                  ∧ err = some (InternalServerError
                                      "Unable to persist Kubernetes Manifest file on disk"
                                      (some e))
                                  ∧ final
                                      = { stack with
                                          Name := payload.StackName, ProjectPath := tmp })
                              ∨ ∃ v p,
                                tail = [Call.deployKubernetesStack tokenData.ID endpoint
                                    { stack with Name := payload.StackName, ProjectPath := tmp }
                                    ⟨stack.ID, payload.StackName, stack.CreatedBy, "content"⟩
                                    (.ok v),
                                  Call.UpdateStoreStackFileFromBytes (toString stack.ID)
                                    stack.EntryPoint payload.StackFileContent (.ok p),
                                  Call.RemoveStackFileBackup (toString stack.ID)
                                    stack.EntryPoint]
                                  ∧ err = none
                                  ∧ final
                                      = { stack with
                                          Name := payload.StackName, ProjectPath := p }))) := by
  have hrun0 : run handler r stack endpoint w
      = updateKubernetesStackFile (traced handler) r stack endpoint (w, []) := by
    simp only [run, updateKubernetesStack, hfile]
  rw [hrun0]
  simp only [updateKubernetesStackFile]
  rcases hv : DecodeAndValidateJSONPayload r.fileBody
      kubernetesFileStackUpdatePayload.Validate with e | payload
  · exact Or.inl ⟨_, e, Or.inl rfl, rfl⟩
  rcases ht : r.tokenData with e | tokenData
  · exact Or.inl ⟨_, e, Or.inr rfl, rfl⟩
  refine Or.inr ⟨payload, tokenData, rfl, rfl, ?_⟩
  simp only [traced_MkdirTemp, updateKubernetesStackFileBody, traced_JoinPaths,
    traced_WriteToFile, List.nil_append]
  generalize (handler.MkdirTemp "" "kub_file_content" w).1 = tmp
  generalize (handler.MkdirTemp "" "kub_file_content" w).2 = w1
  rcases hw : handler.WriteToFile (handler.JoinPaths tmp stack.EntryPoint)
      payload.StackFileContent w1 with ⟨_ | e, w2⟩
  · -- the manifest is in the temp directory
    by_cases hname : payload.StackName = stack.Name
    · obtain ⟨w', kube, tail, err, final, hrun, hkube, htail⟩ :=
        fileDeploy_shape handler payload tokenData tmp stack endpoint w2
          ([Call.MkdirTemp tmp] ++
            [Call.WriteToFile (handler.JoinPaths tmp stack.EntryPoint)
              payload.StackFileContent none])
      simp only [hname, bne_self_eq_false, Bool.false_eq_true, if_false, hrun,
        traced_RemoveAll]
      refine ⟨handler.RemoveAll tmp w', tmp, none, kube ++ tail, err, final, by simp,
        Or.inr (Or.inr ⟨rfl, [], kube, tail, rfl, Or.inl ⟨trivial, rfl⟩, hkube, ?_⟩)⟩
      exact htail
    · have hne : (payload.StackName != stack.Name) = true := by simpa using hname
      simp only [hne, if_true, traced_StackUpdate]
      rcases hu : handler.StackUpdate stack.ID { stack with Name := payload.StackName } w2
        with ⟨_ | e, w3⟩
      · obtain ⟨w', kube, tail, err, final, hrun, hkube, htail⟩ :=
          fileDeploy_shape handler payload tokenData tmp
            { stack with Name := payload.StackName } endpoint w3
            ([Call.MkdirTemp tmp] ++
              [Call.WriteToFile (handler.JoinPaths tmp stack.EntryPoint)
                payload.StackFileContent none]
              ++ [Call.StackUpdate stack.ID { stack with Name := payload.StackName } none])
        simp only [hrun, traced_RemoveAll]
        refine ⟨handler.RemoveAll tmp w', tmp, none, _, err, final, by simp,
          Or.inr (Or.inr ⟨rfl, _, kube, tail, rfl, Or.inr ⟨hname, rfl⟩, hkube, ?_⟩)⟩
        exact htail
      · simp only [traced_RemoveAll]
        exact ⟨handler.RemoveAll tmp w3, tmp, none, _, _, _, by simp,
          Or.inr (Or.inl ⟨rfl, hname, e, rfl, rfl, rfl⟩)⟩
  · simp only [traced_RemoveAll]
    exact ⟨handler.RemoveAll tmp w2, tmp, some e, [], _, _, by simp,
      Or.inl ⟨e, rfl, rfl, rfl, rfl⟩⟩

end Portainer

/-! ## Claims about the file branch -/

namespace Portainer

variable {σ : Type}

/-- A call other than the durable FileStore operations leaves the FileStore alone. -/
theorem FileStore.step_of_no_durable_op (faultOf : GoError → UpdateFault) (fs : FileStore)
    (c : Call) (h : c.isDurableFileOp = false) : FileStore.step faultOf fs c = fs := by
  cases c <;> first | rfl | exact absurd h (by simp [Call.isDurableFileOp])

/-- Calls other than the durable FileStore operations leave the FileStore alone. -/
theorem FileStore.after_of_no_durable_op (faultOf : GoError → UpdateFault) (fs : FileStore)
    (calls : List Call) (h : ∀ c ∈ calls, c.isDurableFileOp = false) :
    fs.after faultOf calls = fs := by
  induction calls with
  | nil => rfl
  | cons c cs ih =>
    have hc := FileStore.step_of_no_durable_op faultOf fs c (h c (List.mem_cons_self _ _))
    have ih' := ih (fun c' hc' => h c' (List.mem_cons_of_mem _ hc'))
    simp only [FileStore.after, List.foldl_cons, hc] at ih' ⊢
    exact ih'

/-- The FileStore after two sequences of calls, one after the other. -/
theorem FileStore.after_append (faultOf : GoError → UpdateFault) (fs : FileStore)
    (xs ys : List Call) :
    fs.after faultOf (xs ++ ys) = (fs.after faultOf xs).after faultOf ys := by
  simp [FileStore.after, List.foldl_append]

/-- C2, as amended (file-branch atomicity).  For a file-managed stack, every
request and every behaviour of the collaborators:
(a) if the durable manifest under `<stackId>/<entryPoint>` exists and has no
backup left over, the handler returns an error, and the rollback, when it is
invoked, does not fail, then the durable manifest bytes after the call are
those before the call;
(b) when the deploy fails, no durable FileStore operation (update, rollback,
removeBackup) is invoked and the deploy error is returned as internal error;
(c) when the durable write fails, it was made for `<stackId>` and
`<entryPoint>`, the rollback is invoked right after it for the same pair, no
durable operation follows, and the error returned is the internal error of the
write failure, whatever the rollback returned. -/
theorem file_branch_atomicity (handler : Handler σ) (r : StackRequest) (stack : Stack)
    (endpoint : Endpoint) (w : σ) (hfile : stack.GitConfig = none) :
    (∀ (fs : FileStore) (faultOf : GoError → UpdateFault) (bytes : String),
        fs.durable (toString stack.ID) stack.EntryPoint = some bytes →
        fs.backup (toString stack.ID) stack.EntryPoint = none →
        (run handler r stack endpoint w).err ≠ none →
        (∀ folder file e,
          Call.RollbackStackFile folder file (some e)
            ∉ (run handler r stack endpoint w).world.2) →
        (fs.after faultOf (run handler r stack endpoint w).world.2).durable
            (toString stack.ID) stack.EntryPoint = some bytes)
      ∧ (∀ userID ep st labels e,
          Call.deployKubernetesStack userID ep st labels (.error e)
              ∈ (run handler r stack endpoint w).world.2 →
            (∀ c ∈ (run handler r stack endpoint w).world.2, c.isDurableFileOp = false)
              ∧ (run handler r stack endpoint w).err
                  = some (InternalServerError
                      "Unable to deploy Kubernetes stack via file content" (some e)))
      ∧ (∀ folder file data e,
          Call.UpdateStoreStackFileFromBytes folder file data (.error e)
              ∈ (run handler r stack endpoint w).world.2 →
            folder = toString stack.ID ∧ file = stack.EntryPoint
              ∧ (∃ pre rb post,
                  (run handler r stack endpoint w).world.2
                      = pre ++ [Call.UpdateStoreStackFileFromBytes folder file data (.error e),
                          Call.RollbackStackFile folder file rb] ++ post
                    ∧ ∀ c ∈ post, c.isDurableFileOp = false)
              ∧ (run handler r stack endpoint w).err
                  = some (InternalServerError
                      "Unable to persist Kubernetes Manifest file on disk" (some e))) := by
  rcases run_file_shape handler r stack endpoint w hfile with
    ⟨msg, e, _, hrun⟩ | ⟨payload, tokenData, _, _, w', tmp, wres, mid, err, final, hrun, hshape⟩
  · rw [hrun]
    refine ⟨?_, ?_, ?_⟩
    · intro fs faultOf bytes hd _ _ _
      simpa [FileStore.after] using hd
    · intro _ _ _ _ _ h; simp at h
    · intro _ _ _ _ h; simp at h
  · rw [hrun]
    simp only
    have hpre : ∀ c ∈ [Call.MkdirTemp tmp,
        Call.WriteToFile (handler.JoinPaths tmp stack.EntryPoint) payload.StackFileContent wres],
        c.isDurableFileOp = false := by
      intro c hc; simp at hc; rcases hc with rfl | rfl <;> rfl
    have hpost : ∀ c ∈ [Call.RemoveAll tmp], c.isDurableFileOp = false := by
      intro c hc; simp at hc; subst hc; rfl
    rcases hshape with ⟨e, rfl, rfl, rfl, rfl⟩ | ⟨rfl, _, e, rfl, rfl, rfl⟩ |
      ⟨rfl, renames, kube, tail, rfl, hren, hkube, htail⟩
    · refine ⟨?_, ?_, ?_⟩
      · intro fs faultOf bytes hd _ _ _
        rw [FileStore.after_of_no_durable_op]
        · exact hd
        · intro c hc; simp at hc; rcases hc with rfl | rfl | rfl <;> rfl
      · intro _ _ _ _ _ h; simp at h
      · intro _ _ _ _ h; simp at h
    · refine ⟨?_, ?_, ?_⟩
      · intro fs faultOf bytes hd _ _ _
        rw [FileStore.after_of_no_durable_op]
        · exact hd
        · intro c hc; simp at hc; rcases hc with rfl | rfl | rfl | rfl <;> rfl
      · intro _ _ _ _ _ h; simp at h
      · intro _ _ _ _ h; simp at h
    · have hren' : ∀ c ∈ renames, c.isDurableFileOp = false ∧ c.isDeploy = false := by
        rcases hren with ⟨_, rfl⟩ | ⟨_, rfl⟩ <;> simp [Call.isDurableFileOp, Call.isDeploy]
      have hkube' : ∀ c ∈ kube, c.isDurableFileOp = false ∧ c.isDeploy = false := by
        rcases hkube with ⟨e, rfl⟩ | ⟨cli, rfl⟩ <;> simp [Call.isDurableFileOp, Call.isDeploy]
      have hhead : ∀ c ∈ [Call.MkdirTemp tmp,
          Call.WriteToFile (handler.JoinPaths tmp stack.EntryPoint) payload.StackFileContent
            none] ++ (renames ++ kube), c.isDurableFileOp = false := by
        intro c hc
        rcases List.mem_append.1 hc with hc | hc
        · exact hpre c hc
        · rcases List.mem_append.1 hc with hc | hc
          · exact (hren' c hc).1
          · exact (hkube' c hc).1
      have hcalls : [Call.MkdirTemp tmp,
          Call.WriteToFile (handler.JoinPaths tmp stack.EntryPoint) payload.StackFileContent
            none] ++ (renames ++ (kube ++ tail) ++ [Call.RemoveAll tmp])
          = ([Call.MkdirTemp tmp,
              Call.WriteToFile (handler.JoinPaths tmp stack.EntryPoint)
                payload.StackFileContent none] ++ (renames ++ kube))
            ++ (tail ++ [Call.RemoveAll tmp]) := by
        simp
      rw [hcalls]
      have hheadD : ∀ c ∈ [Call.MkdirTemp tmp,
          Call.WriteToFile (handler.JoinPaths tmp stack.EntryPoint) payload.StackFileContent
            none] ++ (renames ++ kube), c.isDeploy = false := by
        intro c hc
        rcases List.mem_append.1 hc with hc | hc
        · simp at hc; rcases hc with rfl | rfl <;> rfl
        · rcases List.mem_append.1 hc with hc | hc
          · exact (hren' c hc).2
          · exact (hkube' c hc).2
      generalize [Call.MkdirTemp tmp,
          Call.WriteToFile (handler.JoinPaths tmp stack.EntryPoint) payload.StackFileContent
            none] ++ (renames ++ kube) = head at hhead hheadD ⊢
      rcases htail with ⟨e, rfl, rfl, rfl⟩ | ⟨v, e, rb, rfl, rfl, rfl⟩ | ⟨v, p, rfl, rfl, rfl⟩
      · -- the deploy failed
        have hall : ∀ c ∈ head ++ ([Call.deployKubernetesStack tokenData.ID endpoint
            { stack with Name := payload.StackName, ProjectPath := tmp }
            ⟨stack.ID, payload.StackName, stack.CreatedBy, "content"⟩ (.error e)]
              ++ [Call.RemoveAll tmp]), c.isDurableFileOp = false := by
          intro c hc
          rcases List.mem_append.1 hc with hc | hc
          · exact hhead c hc
          · simp at hc; rcases hc with rfl | rfl <;> rfl
        refine ⟨?_, ?_, ?_⟩
        · intro fs faultOf bytes hd _ _ _
          rw [FileStore.after_of_no_durable_op _ _ _ hall]
          exact hd
        · intro userID ep st labels e' hmem
          refine ⟨hall, ?_⟩
          rcases List.mem_append.1 hmem with hmem | hmem
          · exact absurd (hheadD _ hmem) (by simp [Call.isDeploy])
          · simp at hmem
            rw [hmem.2.2.2.2]
        · intro folder file data e' hmem
          exact absurd (hall _ hmem) (by simp [Call.isDurableFileOp])
      · -- the deploy succeeded and the durable write failed
        refine ⟨?_, ?_, ?_⟩
        · intro fs faultOf bytes hd hb _ hrb
          have hrb' : rb = none := by
            cases rb with
            | none => rfl
            | some e' =>
              exact absurd (by simp) (hrb (toString stack.ID) stack.EntryPoint e')
          subst hrb'
          rw [FileStore.after_append, FileStore.after_of_no_durable_op _ _ _ hhead]
          simp only [FileStore.after, List.cons_append, List.nil_append, List.foldl_cons,
            List.foldl_nil, FileStore.step]
          cases faultOf e <;> simp [setEntry, hd, hb]
        · intro userID ep st labels e' hmem
          rcases List.mem_append.1 hmem with hmem | hmem
          · exact absurd (hheadD _ hmem) (by simp [Call.isDeploy])
          · simp at hmem
        · intro folder file data e' hmem
          rcases List.mem_append.1 hmem with hmem | hmem
          · exact absurd (hhead _ hmem) (by simp [Call.isDurableFileOp])
          · simp at hmem
            obtain ⟨rfl, rfl, rfl, rfl⟩ := hmem
            refine ⟨rfl, rfl, ⟨head ++ [Call.deployKubernetesStack tokenData.ID endpoint
              { stack with Name := payload.StackName, ProjectPath := tmp }
              ⟨stack.ID, payload.StackName, stack.CreatedBy, "content"⟩ (.ok v)], rb,
              [Call.RemoveAll tmp], by simp, hpost⟩, rfl⟩
      · -- the deploy and the durable write succeeded
        refine ⟨?_, ?_, ?_⟩
        · intro fs faultOf bytes _ _ herr
          exact absurd rfl herr
        · intro userID ep st labels e' hmem
          rcases List.mem_append.1 hmem with hmem | hmem
          · exact absurd (hheadD _ hmem) (by simp [Call.isDeploy])
          · simp at hmem
        · intro folder file data e' hmem
          rcases List.mem_append.1 hmem with hmem | hmem
          · exact absurd (hhead _ hmem) (by simp [Call.isDurableFileOp])
          · simp at hmem

end Portainer

namespace Portainer

variable {σ : Type}

/-- C2, counterexample (scenario D of the spec with a failing rollback).  The
durable manifest of the stack is "B"; the payload carries the manifest "A";
the deploy succeeds, the durable write fails after the copy was replaced, and
the rollback fails too.  The handler returns the internal error of the write
and the durable manifest is "A". -/
theorem file_branch_atomicity_counterexample :
    fileStack.GitConfig = none
      ∧ (FileStore.single "7" "deploy.yaml" "B").durable (toString fileStack.ID)
          fileStack.EntryPoint = some "B"
      ∧ (run storeAndRollbackFail (fileRequest payloadManifest) fileStack ⟨1⟩ ()).err
          = some (InternalServerError "Unable to persist Kubernetes Manifest file on disk"
              (some "disk full"))
      ∧ ((FileStore.single "7" "deploy.yaml" "B").after (fun _ => UpdateFault.afterReplace)
            (run storeAndRollbackFail (fileRequest payloadManifest) fileStack ⟨1⟩
              ()).world.2).durable (toString fileStack.ID) fileStack.EntryPoint
          = some "A" := by
  decide

/-- C2, witness (scenario D of the spec): the durable write fails after the
copy was replaced and the rollback succeeds; the durable manifest is "B" again. -/
theorem file_branch_atomicity_witness :
    fileStack.GitConfig = none
      ∧ (run storeFails (fileRequest payloadManifest) fileStack ⟨1⟩ ()).err ≠ none
      ∧ ((FileStore.single "7" "deploy.yaml" "B").after (fun _ => UpdateFault.afterReplace)
            (run storeFails (fileRequest payloadManifest) fileStack ⟨1⟩ ()).world.2).durable
            (toString fileStack.ID) fileStack.EntryPoint
          = some "B" :=
  ⟨rfl, by decide,
    (file_branch_atomicity storeFails (fileRequest payloadManifest) fileStack ⟨1⟩ () rfl).1
      (FileStore.single "7" "deploy.yaml" "B") (fun _ => UpdateFault.afterReplace) "B"
      (by decide) (by decide) (by decide)
      (fun folder file e h => by
        have h' : Call.RollbackStackFile folder file (some e)
            ∈ [Call.MkdirTemp "/tmp/kub_file_content1",
               Call.WriteToFile "/tmp/kub_file_content1/deploy.yaml" "A" none,
               Call.GetKubeClient ⟨1⟩ (.ok ⟨0⟩),
               Call.RefreshEcrSecret ⟨0⟩ ⟨1⟩ "default",
               Call.deployKubernetesStack 1 ⟨1⟩
                 { fileStack with ProjectPath := "/tmp/kub_file_content1" }
                 ⟨7, "web", "admin", "content"⟩ (.ok ""),
               Call.UpdateStoreStackFileFromBytes "7" "deploy.yaml" "A" (.error "disk full"),
               Call.RollbackStackFile "7" "deploy.yaml" none,
               Call.RemoveAll "/tmp/kub_file_content1"] := h
        simp at h')⟩

/-- C10, as amended (rename by omission in the file branch).  For a file-managed
stack with a non-empty name and a valid file payload whose `stackName` is the
empty string, on a request that carries token data and whose temp-directory
write does not fail: the record's name is the empty string on return; the only data
store write of the run is the update of the stack with the emptied name; when
that update succeeds it comes before the deploy, the deploy is made with a
record and labels whose name is the empty string, and a deploy failure returns
the deploy error with no further data store write (the rename stays); when the
update fails no deploy is attempted.  For any valid payload the name on return
is the payload's name, so it is left unchanged only when the two are equal. -/
theorem rename_by_omission (handler : Handler σ) (r : StackRequest) (stack : Stack)
    (endpoint : Endpoint) (w : σ) (payload : kubernetesFileStackUpdatePayload)
    (tokenData : TokenData)
    (hfile : stack.GitConfig = none)
    (hname : stack.Name ≠ "")
    (hvalid : DecodeAndValidateJSONPayload r.fileBody
      kubernetesFileStackUpdatePayload.Validate = .ok payload)
    (hempty : payload.StackName = "")
    (htoken : r.tokenData = .ok tokenData)
    (hwrite : ∀ path data e,
      Call.WriteToFile path data (some e) ∉ (run handler r stack endpoint w).world.2) :
    (run handler r stack endpoint w).stack.Name = ""
      ∧ (∃ res,
          (run handler r stack endpoint w).world.2.filter Call.isStackUpdate
              = [Call.StackUpdate stack.ID { stack with Name := "" } res]
            ∧ (res = none →
                ∃ pre mid post st dres,
                  st.Name = ""
                    ∧ (run handler r stack endpoint w).world.2
                        = pre ++ Call.StackUpdate stack.ID { stack with Name := "" } none
                            :: (mid ++ Call.deployKubernetesStack tokenData.ID endpoint st
                                  ⟨stack.ID, "", stack.CreatedBy, "content"⟩ dres :: post)
                    ∧ (∀ c ∈ pre ++ mid, c.isDeploy = false)
                    ∧ (∀ e, dres = .error e →
                        (run handler r stack endpoint w).err
                          = some (InternalServerError
                              "Unable to deploy Kubernetes stack via file content" (some e))))
            ∧ (∀ e, res = some e →
                (∀ c ∈ (run handler r stack endpoint w).world.2, c.isDeploy = false)
                  ∧ (run handler r stack endpoint w).err
                      = some (InternalServerError "Failed to update stack name" (some e))))
      ∧ (∀ (r2 : StackRequest) (payload2 : kubernetesFileStackUpdatePayload)
          (tokenData2 : TokenData),
          DecodeAndValidateJSONPayload r2.fileBody
              kubernetesFileStackUpdatePayload.Validate = .ok payload2 →
          r2.tokenData = .ok tokenData2 →
          (∀ path data e,
            Call.WriteToFile path data (some e) ∉ (run handler r2 stack endpoint w).world.2) →
          (run handler r2 stack endpoint w).stack.Name = stack.Name →
          payload2.StackName = stack.Name) := by
  have hgen : ∀ (r2 : StackRequest) (payload2 : kubernetesFileStackUpdatePayload)
      (tokenData2 : TokenData),
      DecodeAndValidateJSONPayload r2.fileBody
          kubernetesFileStackUpdatePayload.Validate = .ok payload2 →
      r2.tokenData = .ok tokenData2 →
      (∀ path data e,
        Call.WriteToFile path data (some e) ∉ (run handler r2 stack endpoint w).world.2) →
      (run handler r2 stack endpoint w).stack.Name = payload2.StackName := by
    intro r2 payload2 tokenData2 hv ht hw
    rcases run_file_shape handler r2 stack endpoint w hfile with
      ⟨msg, e, hbad, hrun⟩ |
      ⟨p, t, hv', ht', w', tmp, wres, mid, err, final, hrun, hshape⟩
    · rcases hbad with h | h
      · rw [hv] at h; cases h
      · rw [ht] at h; cases h
    · rw [hv] at hv'; injection hv' with hv'; subst hv'
      rw [hrun] at hw ⊢
      rcases hshape with ⟨e, rfl, _⟩ | ⟨_, _, e, _, _, rfl⟩ | ⟨_, _, _, _, _, _, _, htail⟩
      · exact absurd (List.mem_cons_of_mem _ (List.Mem.head _)) (hw _ _ e)
      · rfl
      · rcases htail with ⟨_, _, _, rfl⟩ | ⟨_, _, _, _, _, rfl⟩ | ⟨_, _, _, _, rfl⟩ <;> rfl
  refine ⟨by rw [hgen r payload tokenData hvalid htoken hwrite, hempty], ?_,
    fun r2 payload2 tokenData2 hv ht hw h => by
      rw [← hgen r2 payload2 tokenData2 hv ht hw, h]⟩
  rcases run_file_shape handler r stack endpoint w hfile with
    ⟨msg, e, hbad, hrun⟩ |
    ⟨p, t, hv', ht', w', tmp, wres, mid, err, final, hrun, hshape⟩
  · rcases hbad with h | h
    · rw [hvalid] at h; cases h
    · rw [htoken] at h; cases h
  rw [hvalid] at hv'; injection hv' with hv'; subst hv'
  rw [htoken] at ht'; injection ht' with ht'; subst ht'
  rw [hrun] at hwrite ⊢
  simp only [hempty] at hshape ⊢
  rcases hshape with ⟨e, rfl, _⟩ | ⟨rfl, _, e, rfl, rfl, rfl⟩ |
    ⟨rfl, renames, kube, tail, rfl, hren, hkube, htail⟩
  · exact absurd (List.mem_cons_of_mem _ (List.Mem.head _)) (hwrite _ _ e)
  · -- the update of the name failed
    refine ⟨some e, ?_, ?_, ?_⟩
    · simp [Call.isStackUpdate]
    · intro h; cases h
    · intro e' he
      injection he with he
      subst he
      exact ⟨by simp [Call.isDeploy], rfl⟩
  · have hrenames : renames = [Call.StackUpdate stack.ID { stack with Name := "" } none] := by
      rcases hren with ⟨h, _⟩ | ⟨_, h⟩
      · exact absurd h.symm hname
      · exact h
    subst hrenames
    have hkube' : kube.filter Call.isStackUpdate = [] ∧ ∀ c ∈ kube, c.isDeploy = false := by
      rcases hkube with ⟨e, rfl⟩ | ⟨cli, rfl⟩ <;> simp [Call.isStackUpdate, Call.isDeploy]
    have hpm : ∀ c ∈ [Call.MkdirTemp tmp,
        Call.WriteToFile (handler.JoinPaths tmp stack.EntryPoint) payload.StackFileContent
          none] ++ kube, c.isDeploy = false := by
      intro c hc
      rcases List.mem_append.1 hc with hc | hc
      · simp at hc; rcases hc with rfl | rfl <;> rfl
      · exact hkube'.2 c hc
    refine ⟨none, ?_, fun _ => ?_, fun e h => by cases h⟩
    · rcases htail with ⟨_, rfl, _⟩ | ⟨_, _, _, rfl, _⟩ | ⟨_, _, rfl, _⟩ <;>
        simp [List.filter_append, hkube'.1, Call.isStackUpdate]
    · rcases htail with ⟨e, rfl, rfl, _⟩ | ⟨v, e, rb, rfl, rfl, _⟩ | ⟨v, p', rfl, rfl, _⟩
      · refine ⟨[Call.MkdirTemp tmp,
            Call.WriteToFile (handler.JoinPaths tmp stack.EntryPoint)
              payload.StackFileContent none], kube, [Call.RemoveAll tmp],
          { stack with Name := "", ProjectPath := tmp }, .error e, rfl, by simp, hpm, ?_⟩
        intro e' he; injection he with he; rw [he]
      · refine ⟨[Call.MkdirTemp tmp,
            Call.WriteToFile (handler.JoinPaths tmp stack.EntryPoint)
              payload.StackFileContent none], kube,
          [Call.UpdateStoreStackFileFromBytes (toString stack.ID) stack.EntryPoint
              payload.StackFileContent (.error e),
            Call.RollbackStackFile (toString stack.ID) stack.EntryPoint rb,
            Call.RemoveAll tmp],
          { stack with Name := "", ProjectPath := tmp }, .ok v, rfl, by simp, hpm, ?_⟩
        intro e' he; cases he
      · refine ⟨[Call.MkdirTemp tmp,
            Call.WriteToFile (handler.JoinPaths tmp stack.EntryPoint)
              payload.StackFileContent none], kube,
          [Call.UpdateStoreStackFileFromBytes (toString stack.ID) stack.EntryPoint
              payload.StackFileContent (.ok p'),
            Call.RemoveStackFileBackup (toString stack.ID) stack.EntryPoint,
            Call.RemoveAll tmp],
          { stack with Name := "", ProjectPath := tmp }, .ok v, rfl, by simp, hpm, ?_⟩
        intro e' he; cases he

end Portainer

namespace Portainer

/-- Scenario C of the spec: the durable manifest is "B", the payload carries the
manifest "A" and the deploy fails.  The handler returns the internal error of
the deploy, the durable manifest is still "B", no backup is left behind and the
temp directory is removed at the end of the run. -/
theorem scenario_deploy_fails :
    (run deployFails (fileRequest payloadManifest) fileStack ⟨1⟩ ()).err
        = some (InternalServerError "Unable to deploy Kubernetes stack via file content"
            (some "apply failed"))
      ∧ ((FileStore.single "7" "deploy.yaml" "B").after (fun _ => UpdateFault.afterReplace)
            (run deployFails (fileRequest payloadManifest) fileStack ⟨1⟩ ()).world.2).durable
            "7" "deploy.yaml" = some "B"
      ∧ ((FileStore.single "7" "deploy.yaml" "B").after (fun _ => UpdateFault.afterReplace)
            (run deployFails (fileRequest payloadManifest) fileStack ⟨1⟩ ()).world.2).backup
            "7" "deploy.yaml" = none
      ∧ (run deployFails (fileRequest payloadManifest) fileStack ⟨1⟩ ()).world.2.getLast?
          = some (Call.RemoveAll "/tmp/kub_file_content1") := by
  refine ⟨rfl, by decide, by decide, rfl⟩

/-- A backup left over from before the call: the durable manifest is "B" with
a stale backup "Z"; the durable write fails before it takes its backup and the
rollback succeeds.  The handler returns the internal error of the write and the
durable manifest is the stale "Z". -/
theorem stale_backup_restored :
    (run storeFails (fileRequest payloadManifest) fileStack ⟨1⟩ ()).err
        = some (InternalServerError "Unable to persist Kubernetes Manifest file on disk"
            (some "disk full"))
      ∧ ((FileStore.withBackup "7" "deploy.yaml" "B" "Z").after
            (fun _ => UpdateFault.beforeBackup)
            (run storeFails (fileRequest payloadManifest) fileStack ⟨1⟩ ()).world.2).durable
            "7" "deploy.yaml" = some "Z" := by
  refine ⟨rfl, by decide⟩

end Portainer

/-! ## The shape of a run of the user handler -/

namespace Portainer

variable {σ : Type}

/-- Tracing `UserByUsername`: the result and the world of the collaborator, and the call
appended to the log. -/
@[simp]
theorem tracedUser_UserByUsername (handler : UserHandler σ) (name : String)
    (w : σ) (log : List UserCall) :
    (tracedUser handler).UserByUsername name (w, log)
      = ((handler.UserByUsername name w).1,
          ((handler.UserByUsername name w).2,
            log ++ [UserCall.UserByUsername name (handler.UserByUsername name w).1.1
              (handler.UserByUsername name w).1.2])) :=
  rfl

/-- Tracing: the not-found test is unchanged. -/
@[simp]
theorem tracedUser_IsErrObjectNotFound (handler : UserHandler σ) :
    (tracedUser handler).IsErrObjectNotFound = handler.IsErrObjectNotFound := rfl

/-- Tracing: the function `hideFields` is unchanged. -/
@[simp]
theorem tracedUser_hideFields (handler : UserHandler σ) :
    (tracedUser handler).hideFields = handler.hideFields := rfl

/-- Tracing `Settings`: the result and the world of the collaborator, and the call appended to
the log. -/
@[simp]
theorem tracedUser_Settings (handler : UserHandler σ) (w : σ) (log : List UserCall) :
    (tracedUser handler).Settings (w, log)
      = ((handler.Settings w).1,
          ((handler.Settings w).2, log ++ [UserCall.Settings (handler.Settings w).1])) :=
  rfl

/-- Tracing `Check`: the result and the world of the collaborator, and the call appended to the
log. -/
@[simp]
theorem tracedUser_Check (handler : UserHandler σ) (password : String)
    (w : σ) (log : List UserCall) :
    (tracedUser handler).Check password (w, log)
      = ((handler.Check password w).1,
          ((handler.Check password w).2,
            log ++ [UserCall.Check password (handler.Check password w).1])) :=
  rfl

/-- Tracing `Hash`: the result and the world of the collaborator, and the call appended to the
log. -/
@[simp]
theorem tracedUser_Hash (handler : UserHandler σ) (password : String)
    (w : σ) (log : List UserCall) :
    (tracedUser handler).Hash password (w, log)
      = ((handler.Hash password w).1,
          ((handler.Hash password w).2,
            log ++ [UserCall.Hash password (handler.Hash password w).1])) :=
  rfl

/-- Tracing `Create`: the result and the world of the collaborator, and the call appended to the
log. -/
@[simp]
theorem tracedUser_Create (handler : UserHandler σ) (user : User)
    (w : σ) (log : List UserCall) :
    (tracedUser handler).Create user (w, log)
      = ((handler.Create user w).1,
          ((handler.Create user w).2,
            log ++ [UserCall.Create user (handler.Create user w).1])) :=
  rfl

/-- Tracing `JSON`: the result and the world of the collaborator, and the call appended to the
log. -/
@[simp]
theorem tracedUser_JSON (handler : UserHandler σ) (user : User)
    (w : σ) (log : List UserCall) :
    (tracedUser handler).JSON user (w, log)
      = ((handler.JSON user w).1,
          ((handler.JSON user w).2,
            log ++ [UserCall.JSON user (handler.JSON user w).1])) :=
  rfl

/-- The end of `userCreate` under tracing: `Create` is called with the record,
and the response is written only when it succeeded. -/
theorem userPersist_shape (handler : UserHandler σ) (user : User) (w : σ)
    (log : List UserCall) :
    ∃ (w' : σ) (tail : List UserCall) (err : Option HandlerError),
      userCreatePersist (tracedUser handler) user (w, log) = (err, (w', log ++ tail))
        ∧ ((∃ e, tail = [UserCall.Create user (some e)]
              ∧ err = some (InternalServerError "Unable to persist user inside the database"
                  (some e)))
            ∨ ∃ res, tail = [UserCall.Create user none,
                  UserCall.JSON (handler.hideFields user) res]
              ∧ err = res) := by
  simp only [userCreatePersist, tracedUser_Create]
  rcases hc : handler.Create user w with ⟨_ | e, w2⟩
  · simp only [tracedUser_hideFields, tracedUser_JSON]
    exact ⟨(handler.JSON (handler.hideFields user) w2).2, _, _, by simp,
      Or.inr ⟨(handler.JSON (handler.hideFields user) w2).1, rfl, rfl⟩⟩
  · exact ⟨w2, _, _, rfl, Or.inl ⟨e, rfl, rfl⟩⟩

/-- The middle of `userCreate` under tracing, for a username that is not
taken: the settings are read, and then either the handler rejects the request
(settings unavailable, password under external authentication, weak password,
hash failure) or it goes on to persist the record, whose password is the hash
under internal authentication and empty otherwise. -/
theorem userNew_shape (handler : UserHandler σ) (payload : userCreatePayload) (w : σ)
    (log : List UserCall) :
    ∃ (w' : σ) (sres : Except GoError Settings) (tail : List UserCall)
      (err : Option HandlerError),
      userCreateNew (tracedUser handler) payload none (w, log)
          = (err, (w', log ++ (UserCall.Settings sres :: tail)))
        ∧ ((∃ e, sres = .error e ∧ tail = []
              ∧ err = some (InternalServerError
                  "Unable to retrieve settings from the database" (some e)))
            ∨ ∃ settings, sres = .ok settings ∧
                (((settings.AuthenticationMethod = AuthenticationLDAP
                      ∨ settings.AuthenticationMethod = AuthenticationOAuth)
                    ∧ payload.Password ≠ "" ∧ tail = []
                    ∧ err = some (BadRequest
                        "A user with password can not be created when authentication method is Oauth or LDAP"
                        (some
                          "A user with password can not be created when authentication method is Oauth or LDAP")))
                  ∨ (settings.AuthenticationMethod = AuthenticationInternal
                      ∧ ((tail = [UserCall.Check payload.Password false]
                            ∧ err = some (BadRequest
                                "Password does not meet the requirements" none))
                          ∨ (∃ e, tail = [UserCall.Check payload.Password true,
                                UserCall.Hash payload.Password (.error e)]
                              ∧ err = some (InternalServerError
                                  "Unable to hash user password" (some errCryptoHashFailure)))
                          ∨ ∃ hash ptail,
                              tail = [UserCall.Check payload.Password true,
                                  UserCall.Hash payload.Password (.ok hash)] ++ ptail
                                ∧ ((∃ e, ptail = [UserCall.Create
                                        ⟨0, payload.Username, hash, payload.Role⟩ (some e)]
                                      ∧ err = some (InternalServerError
                                          "Unable to persist user inside the database"
                                          (some e)))
                                    ∨ ∃ res, ptail = [UserCall.Create
                                          ⟨0, payload.Username, hash, payload.Role⟩ none,
                                        UserCall.JSON (handler.hideFields
                                          ⟨0, payload.Username, hash, payload.Role⟩) res]
                                      ∧ err = res)))
                  ∨ (settings.AuthenticationMethod ≠ AuthenticationInternal
                      ∧ ((settings.AuthenticationMethod = AuthenticationLDAP
                            ∨ settings.AuthenticationMethod = AuthenticationOAuth) →
                          payload.Password = "")
                      ∧ ((∃ e, tail = [UserCall.Create
                              ⟨0, payload.Username, "", payload.Role⟩ (some e)]
                            ∧ err = some (InternalServerError
                                "Unable to persist user inside the database" (some e)))
                          ∨ ∃ res, tail = [UserCall.Create
                                ⟨0, payload.Username, "", payload.Role⟩ none,
                              UserCall.JSON (handler.hideFields
                                ⟨0, payload.Username, "", payload.Role⟩) res]
                            ∧ err = res)))) := by
  simp only [userCreateNew, tracedUser_Settings]
  rcases hs : handler.Settings w with ⟨e | settings, w2⟩
  · exact ⟨w2, _, [], _, rfl, Or.inl ⟨e, rfl, rfl, rfl⟩⟩
  simp only []
  by_cases hext : (settings.AuthenticationMethod = AuthenticationLDAP
      ∨ settings.AuthenticationMethod = AuthenticationOAuth) ∧ payload.Password ≠ ""
  · have hcond : ((settings.AuthenticationMethod == AuthenticationLDAP
          || settings.AuthenticationMethod == AuthenticationOAuth)
          && payload.Password != "") = true := by
      simpa using hext
    simp only [hcond, if_true]
    exact ⟨w2, _, [], _, rfl, Or.inr ⟨settings, rfl, Or.inl ⟨hext.1, hext.2, rfl, rfl⟩⟩⟩
  · have hcond : ((settings.AuthenticationMethod == AuthenticationLDAP
          || settings.AuthenticationMethod == AuthenticationOAuth)
          && payload.Password != "") = false := by
      simpa using hext
    have hpw : (settings.AuthenticationMethod = AuthenticationLDAP
        ∨ settings.AuthenticationMethod = AuthenticationOAuth) → payload.Password = "" := by
      intro h
      by_contra hne
      exact hext ⟨h, hne⟩
    simp only [hcond, Bool.false_eq_true, if_false]
    by_cases hint : settings.AuthenticationMethod = AuthenticationInternal
    · have hi : (settings.AuthenticationMethod == AuthenticationInternal) = true := by
        simpa using hint
      simp only [hi, if_true, tracedUser_Check]
      rcases hc : handler.Check payload.Password w2 with ⟨_ | _, w3⟩
      · exact ⟨w3, _, _, _, by simp, Or.inr ⟨settings, rfl, Or.inr (Or.inl ⟨hint,
          Or.inl ⟨rfl, rfl⟩⟩)⟩⟩
      · simp only [tracedUser_Hash]
        rcases hh : handler.Hash payload.Password w3 with ⟨e | hash, w4⟩
        · exact ⟨w4, _, _, _, by simp, Or.inr ⟨settings, rfl, Or.inr (Or.inl ⟨hint,
            Or.inr (Or.inl ⟨e, rfl, rfl⟩)⟩)⟩⟩
        · obtain ⟨w', ptail, err, hrun, hp⟩ := userPersist_shape handler
            ⟨0, payload.Username, hash, payload.Role⟩ w4
            (log ++ [UserCall.Settings (.ok settings)]
              ++ [UserCall.Check payload.Password true]
              ++ [UserCall.Hash payload.Password (.ok hash)])
          simp only [hrun]
          exact ⟨w', _, _, err, by simp, Or.inr ⟨settings, rfl, Or.inr (Or.inl ⟨hint,
            Or.inr (Or.inr ⟨hash, ptail, rfl, hp⟩)⟩)⟩⟩
    · have hi : (settings.AuthenticationMethod == AuthenticationInternal) = false := by
        simpa using hint
      obtain ⟨w', ptail, err, hrun, hp⟩ := userPersist_shape handler
        ⟨0, payload.Username, "", payload.Role⟩ w2 (log ++ [UserCall.Settings (.ok settings)])
      simp only [hi, Bool.false_eq_true, if_false, hrun]
      exact ⟨w', _, _, err, by simp, Or.inr ⟨settings, rfl, Or.inr (Or.inr ⟨hint, hpw, hp⟩)⟩⟩

end Portainer

namespace Portainer

variable {σ : Type}

/-- Tracing the end of `userCreate` changes only the log. -/
theorem userPersist_untraced (handler : UserHandler σ) (user : User) (w : σ)
    (log : List UserCall) :
    ∃ log', userCreatePersist (tracedUser handler) user (w, log)
      = ((userCreatePersist handler user w).1, ((userCreatePersist handler user w).2, log')) := by
  simp only [userCreatePersist, tracedUser_Create]
  rcases hc : handler.Create user w with ⟨_ | e, w2⟩
  · exact ⟨_, by simp; rfl⟩
  · exact ⟨_, rfl⟩

/-- Tracing the middle of `userCreate` changes only the log. -/
theorem userNew_untraced (handler : UserHandler σ) (payload : userCreatePayload)
    (found : Option User) (w : σ) (log : List UserCall) :
    ∃ log', userCreateNew (tracedUser handler) payload found (w, log)
      = ((userCreateNew handler payload found w).1,
          ((userCreateNew handler payload found w).2, log')) := by
  cases found with
  | some u => exact ⟨log, rfl⟩
  | none =>
    simp only [userCreateNew, tracedUser_Settings]
    rcases hs : handler.Settings w with ⟨e | settings, w2⟩
    · exact ⟨_, rfl⟩
    simp only []
    split
    · exact ⟨_, rfl⟩
    · split
      · simp only [tracedUser_Check]
        rcases hc : handler.Check payload.Password w2 with ⟨_ | _, w3⟩
        · exact ⟨_, rfl⟩
        · simp only [tracedUser_Hash]
          rcases hh : handler.Hash payload.Password w3 with ⟨e | hash, w4⟩
          · exact ⟨_, rfl⟩
          · exact userPersist_untraced handler _ w4 _
      · exact userPersist_untraced handler _ w2 _

/-- The traced run of `userCreate` returns the error of the plain handler and
leaves the world of the plain handler: the log of calls is the only addition. -/
theorem runUser_untraced (handler : UserHandler σ) (r : UserRequest) (w : σ) :
    (runUser handler r w).1 = (userCreate handler r w).1
      ∧ (runUser handler r w).2.1 = (userCreate handler r w).2 := by
  have key : ∃ log', runUser handler r w
      = ((userCreate handler r w).1, ((userCreate handler r w).2, log')) := by
    simp only [runUser, userCreate]
    rcases hv : DecodeAndValidateJSONPayload r.body userCreatePayload.Validate
      with e | payload
    · exact ⟨[], rfl⟩
    simp only [tracedUser_UserByUsername, tracedUser_IsErrObjectNotFound]
    rcases hl : handler.UserByUsername payload.Username w with ⟨⟨found, _ | e⟩, w1⟩
    · exact userNew_untraced handler payload found w1 _
    · simp only []
      cases hnf : handler.IsErrObjectNotFound e with
      | false => exact ⟨_, rfl⟩
      | true => exact userNew_untraced handler payload found w1 _
  obtain ⟨log', h⟩ := key
  rw [h]
  exact ⟨rfl, rfl⟩

end Portainer

namespace Portainer

variable {σ : Type}

/-- The start of `userCreate` under tracing, for a valid payload: the lookup
by username is made; an error other than not-found is returned as internal
error; otherwise a found user is a conflict and a missing one lets the handler
go on. -/
theorem run_user_cases (handler : UserHandler σ) (r : UserRequest) (w : σ)
    (payload : userCreatePayload)
    (hvalid : DecodeAndValidateJSONPayload r.body userCreatePayload.Validate = .ok payload) :
    ∃ found err w1,
      handler.UserByUsername payload.Username w = ((found, err), w1)
        ∧ ((∃ e, err = some e ∧ handler.IsErrObjectNotFound e = false
              ∧ runUser handler r w
                  = (some (InternalServerError "Unable to retrieve users from the database"
                      (some e)),
                    (w1, [UserCall.UserByUsername payload.Username found err])))
            ∨ ((∀ e, err = some e → handler.IsErrObjectNotFound e = true)
                ∧ ((∃ u, found = some u
                      ∧ runUser handler r w
                          = (some (Conflict "Another user with the same username already exists"
                              (some errUserAlreadyExists)),
                            (w1, [UserCall.UserByUsername payload.Username found err])))
                    ∨ (found = none
                        ∧ runUser handler r w
                            = userCreateNew (tracedUser handler) payload none
                                (w1, [UserCall.UserByUsername payload.Username found err]))))) := by
  simp only [runUser, userCreate, hvalid, tracedUser_UserByUsername, List.nil_append,
    tracedUser_IsErrObjectNotFound]
  rcases hl : handler.UserByUsername payload.Username w with ⟨⟨found, _ | e⟩, w1⟩
  · refine ⟨found, none, w1, rfl, Or.inr ⟨(by intro e h; cases h), ?_⟩⟩
    cases found with
    | none => exact Or.inr ⟨rfl, rfl⟩
    | some u => exact Or.inl ⟨u, rfl, by simp [userCreateNew]⟩
  · refine ⟨found, some e, w1, rfl, ?_⟩
    cases hnf : handler.IsErrObjectNotFound e with
    | false => exact Or.inl ⟨e, rfl, hnf, by simp [hnf]⟩
    | true =>
      refine Or.inr ⟨(by intro e' h; cases h; exact hnf), ?_⟩
      cases found with
      | none => exact Or.inr ⟨rfl, by simp [hnf]⟩
      | some u => exact Or.inl ⟨u, rfl, by simp [hnf, userCreateNew]⟩

/-- C7 (external-auth password rejection).  For a payload that passes Validate,
whose username is not taken (the lookup returns no user, with no error or the
not-found error), whose password is non-empty, and settings whose
authentication method is ldap or oauth: `userCreate` returns the BadRequest
(400) error, and the only collaborator calls of the run are the lookup and the
settings read, so no user is persisted and neither the strength checker nor
the hash is called. -/
theorem ldap_oauth_password_rejection (handler : UserHandler σ) (r : UserRequest) (w : σ)
    (payload : userCreatePayload) (err : Option GoError) (w1 w2 : σ) (settings : Settings)
    (hvalid : DecodeAndValidateJSONPayload r.body userCreatePayload.Validate = .ok payload)
    (hlookup : handler.UserByUsername payload.Username w = ((none, err), w1))
    (hnotfound : ∀ e, err = some e → handler.IsErrObjectNotFound e = true)
    (hpassword : payload.Password ≠ "")
    (hsettings : handler.Settings w1 = (.ok settings, w2))
    (hmethod : settings.AuthenticationMethod = AuthenticationLDAP
      ∨ settings.AuthenticationMethod = AuthenticationOAuth) :
    runUser handler r w
        = (some (BadRequest
            "A user with password can not be created when authentication method is Oauth or LDAP"
            (some
              "A user with password can not be created when authentication method is Oauth or LDAP")),
          (w2, [UserCall.UserByUsername payload.Username none err,
                UserCall.Settings (.ok settings)]))
      ∧ (runUser handler r w).1.map HandlerError.StatusCode = some 400
      ∧ ∀ c ∈ (runUser handler r w).2.2, c.isCreateCheckOrHash = false := by
  have hrun : runUser handler r w
      = (some (BadRequest
          "A user with password can not be created when authentication method is Oauth or LDAP"
          (some
            "A user with password can not be created when authentication method is Oauth or LDAP")),
        (w2, [UserCall.UserByUsername payload.Username none err,
              UserCall.Settings (.ok settings)])) := by
    obtain ⟨found, err', w1', hl, hcases⟩ := run_user_cases handler r w payload hvalid
    rw [hl] at hlookup
    injection hlookup with h1 h2
    injection h1 with h3 h4
    subst h2 h3 h4
    rcases hcases with ⟨e, he, hnf, _⟩ | ⟨_, ⟨u', hsome, _⟩ | ⟨_, hrun⟩⟩
    · rw [hnotfound e he] at hnf; cases hnf
    · cases hsome
    · rw [hrun]
      have hcond : ((settings.AuthenticationMethod == AuthenticationLDAP
          || settings.AuthenticationMethod == AuthenticationOAuth)
          && payload.Password != "") = true := by
        simpa using ⟨hmethod, hpassword⟩
      simp [userCreateNew, hsettings, hcond]
  rw [hrun]
  exact ⟨rfl, rfl, by intro c hc; simp at hc; rcases hc with rfl | rfl <;> rfl⟩

end Portainer

namespace Portainer

variable {σ : Type}

/-- C9 (password-presence invariant of `userCreate`).  Assume the hash function
returns a non-empty string whenever it succeeds.  Whenever a run persists a
user (the call `User().Create(u)` succeeds), the payload was valid, the
settings were read, and for an authentication method among internal, ldap and
oauth: the persisted record carries a password iff the method is internal; in
the internal case the strength check accepted the payload password and the
stored value is what the hash function returned for the payload password; in
the ldap/oauth case the stored password is empty (and so is the payload's). -/
theorem password_presence (handler : UserHandler σ) (r : UserRequest) (w : σ)
    (hhash : ∀ password hash,
      UserCall.Hash password (.ok hash) ∈ (runUser handler r w).2.2 → hash ≠ "") :
    ∀ u, UserCall.Create u none ∈ (runUser handler r w).2.2 →
      ∃ payload settings,
        DecodeAndValidateJSONPayload r.body userCreatePayload.Validate = .ok payload
          ∧ UserCall.Settings (.ok settings) ∈ (runUser handler r w).2.2
          ∧ u.Username = payload.Username ∧ u.Role = payload.Role
          ∧ (settings.AuthenticationMethod = AuthenticationInternal
                ∨ settings.AuthenticationMethod = AuthenticationLDAP
                ∨ settings.AuthenticationMethod = AuthenticationOAuth →
              (u.Password ≠ "" ↔ settings.AuthenticationMethod = AuthenticationInternal)
                ∧ (settings.AuthenticationMethod = AuthenticationInternal →
                    UserCall.Check payload.Password true ∈ (runUser handler r w).2.2
                      ∧ UserCall.Hash payload.Password (.ok u.Password)
                          ∈ (runUser handler r w).2.2)
                ∧ (settings.AuthenticationMethod = AuthenticationLDAP
                      ∨ settings.AuthenticationMethod = AuthenticationOAuth →
                    u.Password = "" ∧ payload.Password = "")) := by
  intro u hu
  rcases hv : DecodeAndValidateJSONPayload r.body userCreatePayload.Validate with e | payload
  · simp [runUser, userCreate, hv] at hu
  obtain ⟨found, err, w1, hl, hcases⟩ := run_user_cases handler r w payload hv
  rcases hcases with ⟨e, _, _, hrun⟩ | ⟨_, ⟨u', _, hrun⟩ | ⟨_, hrun⟩⟩
  · rw [hrun] at hu; simp at hu
  · rw [hrun] at hu; simp at hu
  obtain ⟨w', sres, tail, err', hnew, hshape⟩ := userNew_shape handler payload w1
    [UserCall.UserByUsername payload.Username found err]
  rw [hrun, hnew] at hu hhash ⊢
  simp only [List.cons_append, List.nil_append, List.mem_cons] at hu hhash ⊢
  rcases hshape with ⟨e, rfl, rfl, _⟩ | ⟨settings, rfl, hs⟩
  · simp at hu
  refine ⟨payload, settings, rfl, Or.inr (Or.inl rfl), ?_⟩
  rcases hs with ⟨_, _, rfl, _⟩ | ⟨hint, hi⟩ | ⟨hnint, hpw, hp⟩
  · simp at hu
  · rcases hi with ⟨rfl, _⟩ | ⟨e, rfl, _⟩ | ⟨hash, ptail, rfl, hp⟩
    · simp at hu
    · simp at hu
    · have hne : hash ≠ "" := hhash payload.Password hash (by simp)
      have hu' : u = ⟨0, payload.Username, hash, payload.Role⟩ := by
        rcases hp with ⟨e, rfl, _⟩ | ⟨res, rfl, _⟩
        · simp at hu
        · simpa using hu
      subst hu'
      refine ⟨rfl, rfl, fun _ => ⟨⟨fun _ => hint, fun _ => hne⟩, fun _ => ⟨by simp, by simp⟩,
        fun h => ?_⟩⟩
      rcases h with h | h <;> rw [hint] at h <;> exact absurd h (by decide)
  · have hu' : u = ⟨0, payload.Username, "", payload.Role⟩ := by
      rcases hp with ⟨e, rfl, _⟩ | ⟨res, rfl, _⟩
      · simp at hu
      · simpa using hu
    subst hu'
    refine ⟨rfl, rfl, fun _ => ⟨⟨fun h => absurd rfl h, fun h => absurd h hnint⟩,
      fun h => absurd h hnint, fun h => ⟨rfl, hpw h⟩⟩⟩

/-- Go `strings.Contains(s, c)` for a one-character `c`, on character lists. -/
theorem containsChars_singleton (s : List Char) (c : Char) :
    containsChars s [c] = true ↔ c ∈ s := by
  induction s with
  | nil => simp [containsChars]
  | cons d ds ih =>
    simp only [containsChars, Bool.or_eq_true, ih, List.mem_cons]
    constructor
    · rintro (h | h)
      · left
        simp [List.isPrefixOf] at h
        exact h
      · exact Or.inr h
    · rintro (h | h)
      · left
        simp [List.isPrefixOf, h]
      · exact Or.inr h

/-- What `Validate` of `userCreatePayload` does guarantee: an accepted payload
has a non-empty username without a space character, and the role 1 or 2. -/
theorem userCreatePayload_Validate_accepts (payload : userCreatePayload)
    (h : payload.Validate = none) :
    payload.Username ≠ "" ∧ ' ' ∉ payload.Username.data
      ∧ (payload.Role = 1 ∨ payload.Role = 2) := by
  simp only [userCreatePayload.Validate] at h
  split at h
  · cases h
  · rename_i h1
    split at h
    · cases h
    · rename_i h2
      simp only [Bool.or_eq_true, beq_iff_eq, not_or, Bool.not_eq_true] at h1
      refine ⟨?_, ?_, ?_⟩
      · intro he
        apply h1.1
        rw [he]
        rfl
      · intro hmem
        have := (containsChars_singleton payload.Username.data ' ').2 hmem
        have h3 : stringsContains payload.Username " " = true := this
        rw [h1.2] at h3
        cases h3
      · simp only [bne_iff_ne, ne_eq, Bool.and_eq_true, decide_eq_true_eq, not_and,
          Decidable.not_not] at h2
        by_cases hr : payload.Role = 1
        · exact Or.inl hr
        · exact Or.inr (h2 hr)

/-- An accepted payload: the username "alice" and the role 2. -/
theorem userCreatePayload_Validate_accepts_witness :
    userCreatePayload.Validate ⟨"alice", "longpassword", 2⟩ = none
      ∧ ("alice" ≠ "" ∧ ' ' ∉ "alice".data ∧ ((2 : Int) = 1 ∨ (2 : Int) = 2)) :=
  ⟨rfl, userCreatePayload_Validate_accepts ⟨"alice", "longpassword", 2⟩ rfl⟩

/-- C8 (username validation), the code at a username with a tab.  `Validate`
accepts the payload although its username contains a whitespace character (it
only looks for the space character), and `userCreate` persists the user under
that name. -/
theorem username_with_tab_accepted :
    userCreatePayload.Validate ⟨"al\tice", "longpassword", 2⟩ = none
      ∧ '\t' ∈ "al\tice".data ∧ '\t'.isWhitespace = true
      ∧ (runUser (memoryUsers ⟨AuthenticationInternal⟩)
            ⟨.ok ⟨"al\tice", "longpassword", 2⟩⟩ [bob]).1 = none
      ∧ (runUser (memoryUsers ⟨AuthenticationInternal⟩)
            ⟨.ok ⟨"al\tice", "longpassword", 2⟩⟩ [bob]).2.1
          = [bob, ⟨0, "al\tice", "$2a$10$longpassword", 2⟩] := by
  decide

end Portainer

/-! ## The claims on the scenarios of the spec -/

namespace Portainer

/-- C10, counterexample.  The stack "web" is file-managed and the payload is
valid with the manifest "A" and no `stackName`, but the request carries no
token data: the handler returns the bad-request error of the token retrieval
before it reaches the rename, the record's name is still "web" and no
collaborator is called, so nothing is persisted through the data store. -/
theorem rename_by_omission_counterexample :
    fileStack.GitConfig = none
      ∧ fileStack.Name ≠ ""
      ∧ DecodeAndValidateJSONPayload (fileRequestNoToken payloadOmitName).fileBody
          kubernetesFileStackUpdatePayload.Validate = .ok payloadOmitName
      ∧ payloadOmitName.StackName = ""
      ∧ (run allSucceed (fileRequestNoToken payloadOmitName) fileStack ⟨1⟩ ()).err
          = some (BadRequest "Failed to retrieve user token data"
              (some "Unable to find JWT data in request context"))
      ∧ (run allSucceed (fileRequestNoToken payloadOmitName) fileStack ⟨1⟩ ()).stack.Name
          = "web"
      ∧ (run allSucceed (fileRequestNoToken payloadOmitName) fileStack ⟨1⟩ ()).world.2 = [] :=
  ⟨rfl, by decide, rfl, rfl, rfl, rfl, rfl⟩

/-- The same payload on a request with token data whose write of the manifest
into the temp directory fails: the handler returns the internal error of the
write, the record's name is still "web" and the data store is not called. -/
theorem temp_write_failure_keeps_name :
    (run tempWriteFails (fileRequest payloadOmitName) fileStack ⟨1⟩ ()).err
        = some (InternalServerError "Failed to persist deployment file in a temp directory"
            (some "no space left on device"))
      ∧ (run tempWriteFails (fileRequest payloadOmitName) fileStack ⟨1⟩ ()).stack.Name = "web"
      ∧ (run tempWriteFails (fileRequest payloadOmitName) fileStack ⟨1⟩ ()).world.2
          = [Call.MkdirTemp "/tmp/kub_file_content1",
             Call.WriteToFile "/tmp/kub_file_content1/deploy.yaml" "A"
               (some "no space left on device"),
             Call.RemoveAll "/tmp/kub_file_content1"] :=
  ⟨rfl, rfl, rfl⟩

/-- C10, witness: the stack "web", a payload with the manifest "A" and no
`stackName`, every collaborator succeeding: the name is empty on return. -/
theorem rename_by_omission_witness :
    fileStack.GitConfig = none ∧ fileStack.Name ≠ "" ∧ payloadOmitName.StackName = ""
      ∧ (run allSucceed (fileRequest payloadOmitName) fileStack ⟨1⟩ ()).stack.Name = "" :=
  ⟨rfl, by decide, rfl,
    (rename_by_omission allSucceed (fileRequest payloadOmitName) fileStack ⟨1⟩ ()
      payloadOmitName ⟨1⟩ rfl (by decide) rfl rfl rfl
      (fun path data e h => by
        have h' : Call.WriteToFile path data (some e)
            ∈ [Call.MkdirTemp "/tmp/kub_file_content1",
               Call.WriteToFile "/tmp/kub_file_content1/deploy.yaml" "A" none,
               Call.StackUpdate 7 { fileStack with Name := "" } none,
               Call.GetKubeClient ⟨1⟩ (.ok ⟨0⟩),
               Call.RefreshEcrSecret ⟨0⟩ ⟨1⟩ "default",
               Call.deployKubernetesStack 1 ⟨1⟩
                 { fileStack with Name := "", ProjectPath := "/tmp/kub_file_content1" }
                 ⟨7, "", "admin", "content"⟩ (.ok ""),
               Call.UpdateStoreStackFileFromBytes "7" "deploy.yaml" "A"
                 (.ok "/data/compose/7"),
               Call.RemoveStackFileBackup "7" "deploy.yaml",
               Call.RemoveAll "/tmp/kub_file_content1"] := h
        simp at h')).1⟩

/-- C7, witness (scenario E of the spec): settings = ldap, password "x": 400,
and the stored users are unchanged. -/
theorem ldap_oauth_password_rejection_witness :
    DecodeAndValidateJSONPayload aliceShortRequest.body userCreatePayload.Validate
        = .ok ⟨"alice", "x", 2⟩
      ∧ (runUser (memoryUsers ⟨AuthenticationLDAP⟩) aliceShortRequest [bob]).1.map
          HandlerError.StatusCode = some 400
      ∧ (runUser (memoryUsers ⟨AuthenticationLDAP⟩) aliceShortRequest [bob]).2.1 = [bob] :=
  ⟨rfl,
    (ldap_oauth_password_rejection (memoryUsers ⟨AuthenticationLDAP⟩) aliceShortRequest [bob]
      ⟨"alice", "x", 2⟩ (some "object not found inside the database") [bob] [bob]
      ⟨AuthenticationLDAP⟩ rfl rfl (fun e h => by cases h; rfl) (by decide) rfl
      (Or.inl rfl)).2.1,
    rfl⟩

/-- C9, witness: internal authentication, the fresh user "alice" with a
password the strength check accepts: the persisted password is the hash. -/
theorem password_presence_witness :
    (∀ password hash,
        UserCall.Hash password (.ok hash)
            ∈ (runUser (memoryUsers ⟨AuthenticationInternal⟩) aliceRequest [bob]).2.2 →
          hash ≠ "")
      ∧ UserCall.Create ⟨0, "alice", "$2a$10$longpassword", 2⟩ none
          ∈ (runUser (memoryUsers ⟨AuthenticationInternal⟩) aliceRequest [bob]).2.2
      ∧ ∃ payload settings,
          DecodeAndValidateJSONPayload aliceRequest.body userCreatePayload.Validate
              = .ok payload
            ∧ UserCall.Settings (.ok settings)
                ∈ (runUser (memoryUsers ⟨AuthenticationInternal⟩) aliceRequest [bob]).2.2
            ∧ (⟨0, "alice", "$2a$10$longpassword", 2⟩ : User).Username = payload.Username
            ∧ (⟨0, "alice", "$2a$10$longpassword", 2⟩ : User).Role = payload.Role
            ∧ (settings.AuthenticationMethod = AuthenticationInternal
                  ∨ settings.AuthenticationMethod = AuthenticationLDAP
                  ∨ settings.AuthenticationMethod = AuthenticationOAuth →
                ((⟨0, "alice", "$2a$10$longpassword", 2⟩ : User).Password ≠ ""
                    ↔ settings.AuthenticationMethod = AuthenticationInternal)
                  ∧ (settings.AuthenticationMethod = AuthenticationInternal →
                      UserCall.Check payload.Password true
                          ∈ (runUser (memoryUsers ⟨AuthenticationInternal⟩) aliceRequest
                              [bob]).2.2
                        ∧ UserCall.Hash payload.Password
                            (.ok (⟨0, "alice", "$2a$10$longpassword", 2⟩ : User).Password)
                          ∈ (runUser (memoryUsers ⟨AuthenticationInternal⟩) aliceRequest
                              [bob]).2.2)
                  ∧ (settings.AuthenticationMethod = AuthenticationLDAP
                        ∨ settings.AuthenticationMethod = AuthenticationOAuth →
                      (⟨0, "alice", "$2a$10$longpassword", 2⟩ : User).Password = ""
                        ∧ payload.Password = "")) := by
  have hcalls : (runUser (memoryUsers ⟨AuthenticationInternal⟩) aliceRequest [bob]).2.2
      = [UserCall.UserByUsername "alice" none (some "object not found inside the database"),
         UserCall.Settings (.ok ⟨AuthenticationInternal⟩),
         UserCall.Check "longpassword" true,
         UserCall.Hash "longpassword" (.ok "$2a$10$longpassword"),
         UserCall.Create ⟨0, "alice", "$2a$10$longpassword", 2⟩ none,
         UserCall.JSON ⟨0, "alice", "", 2⟩ none] := rfl
  have hhash : ∀ password hash,
      UserCall.Hash password (.ok hash)
          ∈ (runUser (memoryUsers ⟨AuthenticationInternal⟩) aliceRequest [bob]).2.2 →
        hash ≠ "" := by
    intro password hash h
    rw [hcalls] at h
    simp at h
    rw [h.2]
    decide
  have hcreate : UserCall.Create ⟨0, "alice", "$2a$10$longpassword", 2⟩ none
      ∈ (runUser (memoryUsers ⟨AuthenticationInternal⟩) aliceRequest [bob]).2.2 := by
    rw [hcalls]
    simp
  exact ⟨hhash, hcreate,
    password_presence (memoryUsers ⟨AuthenticationInternal⟩) aliceRequest [bob] hhash
      ⟨0, "alice", "$2a$10$longpassword", 2⟩ hcreate⟩

end Portainer
